import Mathlib

/-!
Verification development for the MaaS key-manager v2 policy and entity
lifecycle engine (Go sources: the key-manager main handlers and the
`internal/policies/dynamic-policies.go` package).

The Go code is shallowly embedded: Kubernetes Secrets become a
`SecretStore` (a list of named, labelled records), the Kuadrant policy
custom resources become `PolicyStore`s (named objects with opaque
resource-version / UID metadata), Go errors become the inductive `GoErr`
(with `wrap` modelling `fmt.Errorf("...: %w", err)`), and the calls into
the external stores are deterministic functions with explicit fault
injection fields standing for external failures.  Machine integers are
modelled as `Nat`/`Int` with explicit reduction mod 2^32 where the source
(SHA-256) relies on 32-bit wrap-around.
-/

/-! ### Small string / assoc-list helpers -/

/-- Character-level truncation `s[:n]`.  Go slices strings by byte; every
string sliced in this code base (hex digests, base64url tokens, generated
names) is ASCII, where byte slicing and character slicing agree. -/
def strTake (s : String) (n : Nat) : String :=
  String.mk (s.data.take n)

def listStartsWith : List Char → List Char → Bool
  | _, [] => true
  | [], _ :: _ => false
  | c :: cs, p :: ps => c = p && listStartsWith cs ps

def listContainsSeq : List Char → List Char → Bool
  | [], pat => pat.isEmpty
  | c :: cs, pat => listStartsWith (c :: cs) pat || listContainsSeq cs pat

/-- `strings.Contains s pat`: the pattern occurs contiguously in `s`. -/
def containsSubstr (s pat : String) : Bool :=
  listContainsSeq s.data pat.data

/-- Lookup in a label/annotation association list (Go `map[string]string`
indexing, `none` when the key is absent). -/
def kvGet (l : List (String × String)) (k : String) : Option String :=
  (l.find? (fun p => p.1 = k)).map (·.2)

/-- `strings.Join xs ","`. -/
def joinComma : List String → String
  | [] => ""
  | [x] => x
  | x :: xs => x ++ "," ++ joinComma xs

/-- `fmt.Sscanf(s, "%d", &n)` into a pre-zeroed Go `int`: parse a decimal
integer, keeping `0` when the string does not parse. -/
def parseIntAnn (s : String) : Int :=
  (s.toInt?).getD 0

/-! ### SHA-256 (crypto/sha256), over `Nat` words reduced mod 2^32 -/

def w32 (n : Nat) : Nat := n % 4294967296

def rotr32 (x n : Nat) : Nat :=
  w32 ((x >>> n) ||| (x <<< (32 - n)))

def shaCh (x y z : Nat) : Nat := (x &&& y) ^^^ ((x ^^^ 4294967295) &&& z)

def shaMaj (x y z : Nat) : Nat := (x &&& y) ^^^ (x &&& z) ^^^ (y &&& z)

def shaBigSigma0 (x : Nat) : Nat := rotr32 x 2 ^^^ rotr32 x 13 ^^^ rotr32 x 22

def shaBigSigma1 (x : Nat) : Nat := rotr32 x 6 ^^^ rotr32 x 11 ^^^ rotr32 x 25

def shaSmallSigma0 (x : Nat) : Nat := rotr32 x 7 ^^^ rotr32 x 18 ^^^ (x >>> 3)

def shaSmallSigma1 (x : Nat) : Nat := rotr32 x 17 ^^^ rotr32 x 19 ^^^ (x >>> 10)

def shaK : List Nat :=
  [1116352408, 1899447441, 3049323471, 3921009573, 961987163, 1508970993,
   2453635748, 2870763221, 3624381080, 310598401, 607225278, 1426881987,
   1925078388, 2162078206, 2614888103, 3248222580, 3835390401, 4022224774,
   264347078, 604807628, 770255983, 1249150122, 1555081692, 1996064986,
   2554220882, 2821834349, 2952996808, 3210313671, 3336571891, 3584528711,
   113926993, 338241895, 666307205, 773529912, 1294757372, 1396182291,
   1695183700, 1986661051, 2177026350, 2456956037, 2730485921, 2820302411,
   3259730800, 3345764771, 3516065817, 3600352804, 4094571909, 275423344,
   430227734, 506948616, 659060556, 883997877, 958139571, 1322822218,
   1537002063, 1747873779, 1955562222, 2024104815, 2227730452, 2361852424,
   2428436474, 2756734187, 3204031479, 3329325298]

structure Hash8 where
  a : Nat
  b : Nat
  c : Nat
  d : Nat
  e : Nat
  f : Nat
  g : Nat
  h : Nat
deriving Repr, DecidableEq

def shaH0 : Hash8 :=
  { a := 1779033703, b := 3144134277, c := 1013904242, d := 2773480762,
    e := 1359893119, f := 2600822924, g := 528734635, h := 1541459225 }

/-- Big-endian byte rendering of `n` on `count` bytes. -/
def natToBytesBE : Nat → Nat → List Nat
  | _, 0 => []
  | n, c + 1 => natToBytesBE (n / 256) c ++ [n % 256]

/-- Four big-endian bytes to a 32-bit word. -/
def bytesToWord : List Nat → Nat
  | [b0, b1, b2, b3] => b0 * 16777216 + b1 * 65536 + b2 * 256 + b3
  | _ => 0

def toChunksF (sz : Nat) : Nat → List Nat → List (List Nat)
  | 0, _ => []
  | _, [] => []
  | fuel + 1, x :: xs => (x :: xs).take sz :: toChunksF sz fuel ((x :: xs).drop sz)

/-- Split a byte list into consecutive chunks of `sz` bytes (structural
fuel recursion on the list length, so the kernel can evaluate it). -/
def toChunks (sz : Nat) (l : List Nat) : List (List Nat) :=
  toChunksF sz l.length l

/-- SHA-256 message padding: `0x80`, zeros, then the 64-bit big-endian
bit length, to a multiple of 64 bytes. -/
def shaPad (msg : List Nat) : List Nat :=
  let len := msg.length
  let k := (64 - (len + 9) % 64) % 64
  msg ++ [0x80] ++ List.replicate k 0 ++ natToBytesBE (len * 8) 8

/-- Extend the 16-word block schedule by `n` further words. -/
def extendSchedule : List Nat → Nat → List Nat
  | w, 0 => w
  | w, n + 1 =>
    let i := w.length
    let nw := w32 (shaSmallSigma1 (w.getD (i - 2) 0) + w.getD (i - 7) 0 +
                   shaSmallSigma0 (w.getD (i - 15) 0) + w.getD (i - 16) 0)
    extendSchedule (w ++ [nw]) n

def shaRound (st : Hash8) (kw : Nat × Nat) : Hash8 :=
  let t1 := w32 (st.h + shaBigSigma1 st.e + shaCh st.e st.f st.g + kw.1 + kw.2)
  let t2 := w32 (shaBigSigma0 st.a + shaMaj st.a st.b st.c)
  { a := w32 (t1 + t2), b := st.a, c := st.b, d := st.c,
    e := w32 (st.d + t1), f := st.e, g := st.f, h := st.g }

def shaCompress (hs : Hash8) (block : List Nat) : Hash8 :=
  let w0 := (toChunks 4 block).map bytesToWord
  let w := extendSchedule w0 48
  let st := (shaK.zip w).foldl shaRound hs
  { a := w32 (hs.a + st.a), b := w32 (hs.b + st.b), c := w32 (hs.c + st.c),
    d := w32 (hs.d + st.d), e := w32 (hs.e + st.e), f := w32 (hs.f + st.f),
    g := w32 (hs.g + st.g), h := w32 (hs.h + st.h) }

def sha256Bytes (msg : List Nat) : List Nat :=
  let hs := (toChunks 64 (shaPad msg)).foldl shaCompress shaH0
  natToBytesBE hs.a 4 ++ natToBytesBE hs.b 4 ++ natToBytesBE hs.c 4 ++ natToBytesBE hs.d 4 ++
  natToBytesBE hs.e 4 ++ natToBytesBE hs.f 4 ++ natToBytesBE hs.g 4 ++ natToBytesBE hs.h 4

def hexDigit (n : Nat) : Char :=
  "0123456789abcdef".data.getD n '0'

def bytesToHexChars : List Nat → List Char
  | [] => []
  | b :: bs => hexDigit (b / 16) :: hexDigit (b % 16) :: bytesToHexChars bs

/-- UTF-8 encoding of one character (Go `[]byte(s)` byte semantics). -/
def utf8Bytes (c : Char) : List Nat :=
  let n := c.toNat
  if n < 0x80 then [n]
  else if n < 0x800 then [0xC0 ||| (n >>> 6), 0x80 ||| (n &&& 0x3F)]
  else if n < 0x10000 then
    [0xE0 ||| (n >>> 12), 0x80 ||| ((n >>> 6) &&& 0x3F), 0x80 ||| (n &&& 0x3F)]
  else
    [0xF0 ||| (n >>> 18), 0x80 ||| ((n >>> 12) &&& 0x3F), 0x80 ||| ((n >>> 6) &&& 0x3F),
     0x80 ||| (n &&& 0x3F)]

def strBytes (s : String) : List Nat :=
  (s.data.map utf8Bytes).flatten

/-- `hex.EncodeToString(sha256.Sum(...))` of a string's bytes: the
64-character lowercase hex digest used for key fingerprints. -/
def sha256hex (s : String) : String :=
  String.mk (bytesToHexChars (sha256Bytes (strBytes s)))

/-! ### base64 URL-safe encoding with padding (encoding/base64.URLEncoding) -/

def b64Alphabet : List Char :=
  "ABCDEFGHIJKLMNOPQRSTUVWXYZabcdefghijklmnopqrstuvwxyz0123456789-_".data

def b64Char (n : Nat) : Char := b64Alphabet.getD n 'A'

/-- Encode a byte list in base64url with `=` padding, 3 bytes per 4 chars. -/
def base64urlEncodeList : List Nat → List Char
  | [] => []
  | [b0] =>
    [b64Char (b0 >>> 2), b64Char ((b0 &&& 3) <<< 4), '=', '=']
  | [b0, b1] =>
    [b64Char (b0 >>> 2), b64Char (((b0 &&& 3) <<< 4) ||| (b1 >>> 4)),
     b64Char ((b1 &&& 15) <<< 2), '=']
  | b0 :: b1 :: b2 :: rest =>
    b64Char (b0 >>> 2) :: b64Char (((b0 &&& 3) <<< 4) ||| (b1 >>> 4)) ::
    b64Char (((b1 &&& 15) <<< 2) ||| (b2 >>> 6)) :: b64Char (b2 &&& 63) ::
    base64urlEncodeList rest

set_option maxRecDepth 100000

/-! ### Go error values

`fmt.Errorf("...: %w", err)` becomes `GoErr.wrap`; the Kubernetes API
errors that the code inspects become dedicated constructors whose rendered
messages carry the phrases the code greps for; `injected` stands for an
external-store failure injected by the environment (network error, etc.). -/

inductive GoErr where
  | kubeAlreadyExists (name : String)
  | kubeNotFound (name : String)
  | kubeConflict (name : String)
  | injected (msg : String)
  | msg (s : String)
  | wrap (m : String) (inner : GoErr)
deriving Repr, DecidableEq

deriving instance DecidableEq for Except

/-- Rendered `err.Error()` text. -/
def GoErr.render : GoErr → String
  | .kubeAlreadyExists n => "\"" ++ n ++ "\" already exists"
  | .kubeNotFound n => "\"" ++ n ++ "\" not found"
  | .kubeConflict n => "operation cannot be fulfilled on \"" ++ n ++ "\": the object has been modified"
  | .injected m => m
  | .msg s => s
  | .wrap m inner => m ++ inner.render

/-- `strings.Contains(err.Error(), "already exists")`, computed on the
error structure: a create-conflict error always renders the phrase, and an
injected message contains it exactly when its text does. -/
def errContainsAlreadyExists : GoErr → Bool
  | .kubeAlreadyExists _ => true
  | .injected m => containsSubstr m "already exists"
  | .msg s => containsSubstr s "already exists"
  | .wrap m inner => containsSubstr m "already exists" || errContainsAlreadyExists inner
  | _ => false

/-- `errors.Is`: the target is the error itself or appears in its `%w` chain. -/
def errIs : GoErr → GoErr → Bool
  | .wrap m inner, target => (GoErr.wrap m inner = target) || errIs inner target
  | e, target => e = target

/-! ### Tier table and tier-limit resolution (internal/policies/dynamic-policies.go) -/

structure TierLimits where
  tokenLimit : Int
  tokenWindow : String
  requestLimit : Int
  requestWindow : String
  modelsAllowed : List String
  tokenLimitPerHour : Int
  tokenLimitPerDay : Int
  maxConcurrentRequests : Int
deriving Repr, DecidableEq

/-- `GetDefaultTier`: the `DEFAULT_TIER` environment value when set and
non-empty, otherwise `"standard"`. -/
def getDefaultTier (env : Option String) : String :=
  match env with
  | some v => if v = "" then "standard" else v
  | none => "standard"

/-- The four hardcoded cases of the `switch tier` in `GetTierLimits`
(`none` is the `default:` fallback branch). -/
def lookupTier : String → Option TierLimits
  | "free" => some
    { tokenLimit := 2000, tokenWindow := "1m", requestLimit := 60, requestWindow := "1m",
      modelsAllowed := ["simulator-model"],
      tokenLimitPerHour := 10000, tokenLimitPerDay := 50000, maxConcurrentRequests := 5 }
  | "standard" => some
    { tokenLimit := 10000, tokenWindow := "1m", requestLimit := 120, requestWindow := "1m",
      modelsAllowed := ["simulator-model", "qwen3-0-6b-instruct"],
      tokenLimitPerHour := 50000, tokenLimitPerDay := 500000, maxConcurrentRequests := 10 }
  | "premium" => some
    { tokenLimit := 50000, tokenWindow := "1m", requestLimit := 600, requestWindow := "1m",
      modelsAllowed := ["simulator-model", "qwen3-0-6b-instruct", "premium-models"],
      tokenLimitPerHour := 200000, tokenLimitPerDay := 2000000, maxConcurrentRequests := 25 }
  | "unlimited" => some
    { tokenLimit := -1, tokenWindow := "1h", requestLimit := -1, requestWindow := "1h",
      modelsAllowed := ["*"],
      tokenLimitPerHour := -1, tokenLimitPerDay := -1, maxConcurrentRequests := -1 }
  | _ => none

/-- `GetTierLimits` with explicit fuel: the Go function recurses on the
`default:` branch with `GetTierLimits(GetDefaultTier())`, which is general
recursion; `none` means the recursion does not terminate within `fuel`
calls.  Two units of fuel decide termination (see
`getTierLimitsFuel_stable`): the first call resolves an empty tier name to
the default, the second call is always on the default tier name, and from
then on the argument never changes. -/
def getTierLimitsFuel : Nat → Option String → String → Option TierLimits
  | 0, _, _ => none
  | fuel + 1, env, tier =>
    let t := if tier = "" then getDefaultTier env else tier
    match lookupTier t with
    | some l => some l
    | none => getTierLimitsFuel fuel env (getDefaultTier env)

/-- The Go `GetTierLimits(tier)` call loops forever on this `env`/`tier`
pair: no amount of fuel produces a result. -/
def getTierLimitsDiverges (env : Option String) (tier : String) : Prop :=
  ∀ fuel : Nat, getTierLimitsFuel fuel env tier = none

/-! ### Secrets store (Kubernetes `corev1.Secret` objects used as records) -/

structure Secret where
  name : String
  labels : List (String × String)
  annots : List (String × String)
  data : List (String × String)
deriving Repr, DecidableEq

/-- The Secrets API as seen by this code: a list of named records plus
fault-injection fields standing for external failures of the delete and
delete-collection calls (the operations whose failure the code tolerates). -/
structure SecretStore where
  items : List Secret
  injDeleteFail : Option String := none
  injDeleteCollectionFail : Option String := none
deriving Repr, DecidableEq

def secretGet (ss : SecretStore) (name : String) : Option Secret :=
  ss.items.find? (fun s => s.name = name)

def secretCreate (ss : SecretStore) (s : Secret) : Except GoErr SecretStore :=
  match secretGet ss s.name with
  | some _ => .error (.kubeAlreadyExists s.name)
  | none => .ok { ss with items := ss.items ++ [s] }

def secretDelete (ss : SecretStore) (name : String) : Except GoErr Unit × SecretStore :=
  match ss.injDeleteFail with
  | some m => (.error (.injected m), ss)
  | none =>
    match secretGet ss name with
    | none => (.error (.kubeNotFound name), ss)
    | some _ => (.ok (), { ss with items := ss.items.filter (fun s => s.name ≠ name) })

/-- A record matches a label selector when every selector pair is among its
labels with that exact value. -/
def matchesSelector (s : Secret) (sel : List (String × String)) : Bool :=
  sel.all (fun p => kvGet s.labels p.1 = some p.2)

def secretList (ss : SecretStore) (sel : List (String × String)) : List Secret :=
  ss.items.filter (fun s => matchesSelector s sel)

def secretDeleteCollection (ss : SecretStore) (sel : List (String × String)) :
    Except GoErr Unit × SecretStore :=
  match ss.injDeleteCollectionFail with
  | some m => (.error (.injected m), ss)
  | none => (.ok (), { ss with items := ss.items.filter (fun s => ¬ matchesSelector s sel) })

def secretUpdate (ss : SecretStore) (s : Secret) : Except GoErr SecretStore :=
  match secretGet ss s.name with
  | none => .error (.kubeNotFound s.name)
  | some _ => .ok { ss with items := ss.items.map (fun o => if o.name = s.name then s else o) }

/-! ### Policy store (Kuadrant TokenRateLimitPolicy / RateLimitPolicy objects) -/

/-- One enforcement-policy object: the fields of the manifest the code
builds that the claims observe, plus the store-assigned identity metadata
(`resourceVersion`, `uid`) that the upsert protocol copies forward. -/
structure PolicyObj where
  name : String
  teamID : String
  limit : Int
  window : String
  counterExpr : String
  predicate : String
  resourceVersion : Nat
  uid : Nat
deriving Repr, DecidableEq

structure PolicyStore where
  objs : List PolicyObj
  nextUid : Nat := 0
  injCreateFail : Option String := none
  injDeleteFail : Option String := none
deriving Repr, DecidableEq

def policyGet (ps : PolicyStore) (name : String) : Option PolicyObj :=
  ps.objs.find? (fun o => o.name = name)

/-- Create assigns a fresh UID and initial resource version; it fails with
an already-exists error when the name is taken, or with the injected
failure when one is configured. -/
def policyCreate (ps : PolicyStore) (pol : PolicyObj) : Except GoErr PolicyStore :=
  match ps.injCreateFail with
  | some m => .error (.injected m)
  | none =>
    match policyGet ps pol.name with
    | some _ => .error (.kubeAlreadyExists pol.name)
    | none => .ok { ps with
        objs := ps.objs ++ [{ pol with uid := ps.nextUid, resourceVersion := 1 }],
        nextUid := ps.nextUid + 1 }

/-- Update requires the submitted object's resource version to match the
stored one (the store's optimistic concurrency check) and bumps it. -/
def policyUpdate (ps : PolicyStore) (pol : PolicyObj) : Except GoErr PolicyStore :=
  match policyGet ps pol.name with
  | none => .error (.kubeNotFound pol.name)
  | some existing =>
    if existing.resourceVersion = pol.resourceVersion then
      .ok { ps with objs := ps.objs.map (fun o =>
        if o.name = pol.name then { pol with resourceVersion := pol.resourceVersion + 1 } else o) }
    else .error (.kubeConflict pol.name)

def policyDelete (ps : PolicyStore) (name : String) : Except GoErr PolicyStore :=
  match ps.injDeleteFail with
  | some m => .error (.injected m)
  | none =>
    match policyGet ps name with
    | none => .error (.kubeNotFound name)
    | some _ => .ok { ps with objs := ps.objs.filter (fun o => o.name ≠ name) }

/-! ### Policy engine (internal/policies/dynamic-policies.go) -/

/-- The `when` predicate built for a team's limits entry. -/
def teamPredicate (teamID : String) : String :=
  "has(auth.identity.metadata.labels) && auth.identity.metadata.labels[\"maas/team-id\"] == \"" ++
    teamID ++ "\""

/-- `CreateTeamTokenRateLimit`: skip for the unlimited sentinel and for the
reserved default team; otherwise create the policy object by its
deterministic name, and on an already-exists failure fetch the existing
object, copy its resource version and UID onto the new definition and
update; any other create failure is returned as an error. -/
def createTeamTokenRateLimit (teamID policyName : String) (limits : TierLimits)
    (ps : PolicyStore) : Except GoErr Unit × PolicyStore :=
  if limits.tokenLimit = -1 then (.ok (), ps)
  else if teamID = "default" then (.ok (), ps)
  else
    let pol : PolicyObj :=
      { name := policyName, teamID := teamID, limit := limits.tokenLimit,
        window := limits.tokenWindow, counterExpr := "auth.identity.userid",
        predicate := teamPredicate teamID, resourceVersion := 0, uid := 0 }
    match policyCreate ps pol with
    | .ok ps1 => (.ok (), ps1)
    | .error e =>
      if errContainsAlreadyExists e then
        match policyGet ps policyName with
        | none => (.error (.wrap "failed to get existing TokenRateLimitPolicy for update: "
            (.kubeNotFound policyName)), ps)
        | some existing =>
          let pol1 := { pol with resourceVersion := existing.resourceVersion, uid := existing.uid }
          match policyUpdate ps pol1 with
          | .ok ps1 => (.ok (), ps1)
          | .error ue => (.error (.wrap "failed to update existing TokenRateLimitPolicy: " ue), ps)
      else (.error (.wrap "failed to create TokenRateLimitPolicy: " e), ps)

/-- `CreateTeamRequestRateLimit`: the same upsert protocol for the
request-count policy kind. -/
def createTeamRequestRateLimit (teamID policyName : String) (limits : TierLimits)
    (ps : PolicyStore) : Except GoErr Unit × PolicyStore :=
  if limits.requestLimit = -1 then (.ok (), ps)
  else if teamID = "default" then (.ok (), ps)
  else
    let pol : PolicyObj :=
      { name := policyName, teamID := teamID, limit := limits.requestLimit,
        window := limits.requestWindow, counterExpr := "auth.identity.userid",
        predicate := teamPredicate teamID, resourceVersion := 0, uid := 0 }
    match policyCreate ps pol with
    | .ok ps1 => (.ok (), ps1)
    | .error e =>
      if errContainsAlreadyExists e then
        match policyGet ps policyName with
        | none => (.error (.wrap "failed to get existing RateLimitPolicy for update: "
            (.kubeNotFound policyName)), ps)
        | some existing =>
          let pol1 := { pol with resourceVersion := existing.resourceVersion, uid := existing.uid }
          match policyUpdate ps pol1 with
          | .ok ps1 => (.ok (), ps1)
          | .error ue => (.error (.wrap "failed to update existing RateLimitPolicy: " ue), ps)
      else (.error (.wrap "failed to create RateLimitPolicy: " e), ps)

/-- `CreateTeamRateLimitPolicies`: both kinds, token first, aborting on the
first failure with the wrapping messages of the source. -/
def createTeamRateLimitPolicies (teamID : String) (limits : TierLimits)
    (tp rp : PolicyStore) : Except GoErr Unit × PolicyStore × PolicyStore :=
  match createTeamTokenRateLimit teamID ("team-" ++ teamID ++ "-token-limits") limits tp with
  | (.error e, tp1) => (.error (.wrap "failed to create token rate limit policy: " e), tp1, rp)
  | (.ok _, tp1) =>
    match createTeamRequestRateLimit teamID ("team-" ++ teamID ++ "-request-limits") limits rp with
    | (.error e, rp1) => (.error (.wrap "failed to create request rate limit policy: " e), tp1, rp1)
    | (.ok _, rp1) => (.ok (), tp1, rp1)

def deleteTeamTokenRateLimitOp (policyName : String) (ps : PolicyStore) :
    Except GoErr Unit × PolicyStore :=
  match policyDelete ps policyName with
  | .error e => (.error (.wrap "failed to delete TokenRateLimitPolicy: " e), ps)
  | .ok ps1 => (.ok (), ps1)

def deleteTeamRequestRateLimitOp (policyName : String) (ps : PolicyStore) :
    Except GoErr Unit × PolicyStore :=
  match policyDelete ps policyName with
  | .error e => (.error (.wrap "failed to delete RateLimitPolicy: " e), ps)
  | .ok ps1 => (.ok (), ps1)

/-- `DeleteTeamPolicies`: best-effort delete of both kinds by their
deterministic names; failures are logged and swallowed, the function
always returns success. -/
def deleteTeamPolicies (teamID : String) (tp rp : PolicyStore) :
    Except GoErr Unit × PolicyStore × PolicyStore :=
  let tp1 := (deleteTeamTokenRateLimitOp ("team-" ++ teamID ++ "-token-limits") tp).2
  let rp1 := (deleteTeamRequestRateLimitOp ("team-" ++ teamID ++ "-request-limits") rp).2
  (.ok (), tp1, rp1)

/-! ### Key-manager configuration and request/response records -/

/-- The `KeyManager` fields these handlers read.  `envDefaultTier` is the
`DEFAULT_TIER` environment variable (None = unset); `defaultTeamTier` is
the resolved `DEFAULT_TEAM_TIER` startup setting; `now` stands for
`time.Now().Format(time.RFC3339)`. -/
structure KMConfig where
  enablePolicyMgmt : Bool
  envDefaultTier : Option String
  defaultTeamTier : String
  secretSelectorValue : String
  now : String
deriving Repr, DecidableEq

structure CreateTeamRequest where
  teamID : String
  teamName : String
  description : String
  defaultTier : String
  tokenLimit : Int
  requestLimit : Int
  timeWindow : String
deriving Repr, DecidableEq

structure CreateTeamKeyRequest where
  userID : String
  keyAlias : String
  models : List String
  inheritTeamLimits : Bool
  tokenLimit : Int
  requestLimit : Int
  timeWindow : String
  customLimits : List (String × String)
deriving Repr, DecidableEq

structure TeamMember where
  userID : String
  userEmail : String
  role : String
  teamID : String
  teamName : String
  tier : String
  defaultModels : List String
  joinedAt : String
  tokenLimit : Int
  requestLimit : Int
  timeWindow : String
deriving Repr, DecidableEq

structure InheritedPolicies where
  tier : String
  teamID : String
  teamHourlyLimit : Int
  userHourlyLimit : Int
  modelsAllowed : List String
  budgetEnforcement : Bool
  maxConcurrentRequests : Int
deriving Repr, DecidableEq

/-- The membership summary the response carries: the reduced map when
policy management is disabled, the tier-derived one otherwise. -/
inductive InheritedInfo where
  | basic (tier teamID : String)
  | full (p : InheritedPolicies)
deriving Repr, DecidableEq

structure CreateTeamKeyResponse where
  apiKey : String
  userID : String
  teamID : String
  secretName : String
  modelsAllowed : List String
  tier : String
  tokenLimit : Int
  requestLimit : Int
  timeWindow : String
  inherited : InheritedInfo
  customConstraints : List (String × String)
deriving Repr, DecidableEq

/-- The whole externally stored state the lifecycle engine manipulates. -/
structure SysState where
  secrets : SecretStore
  tokenPolicies : PolicyStore
  requestPolicies : PolicyStore
deriving Repr, DecidableEq

/-! ### Validation helpers and the lifecycle engine (key-manager main handlers) -/

def isLowerAlnum (c : Char) : Bool :=
  ('a' ≤ c && c ≤ 'z') || ('0' ≤ c && c ≤ '9')

/-- `isValidUserID`: RFC 1123 label — 1 to 63 characters, lowercase
alphanumerics and hyphens, first and last character alphanumeric
(the regexp `[a-z0-9]([a-z0-9-]*[a-z0-9])?` plus the length check). -/
def isValidUserID (s : String) : Bool :=
  let cs := s.data
  decide (1 ≤ cs.length) && decide (cs.length ≤ 63) &&
  cs.all (fun c => isLowerAlnum c || c = '-') &&
  (match cs.head? with | none => false | some c => isLowerAlnum c) &&
  (match cs.getLast? with | none => false | some c => isLowerAlnum c)

/-- `isValidTeamID` applies the same rules as `isValidUserID`. -/
def isValidTeamID (s : String) : Bool := isValidUserID s

/-- `getAvailableTiers`: always the hardcoded tier names. -/
def getAvailableTiers : List String := ["free", "standard", "premium", "unlimited"]

def teamCfgName (teamID : String) : String := "team-" ++ teamID ++ "-config"

/-- `validateTeamRequest`: identifier and name checks, defaulting of an
empty tier from `DEFAULT_TIER`, and — when policy management is enabled —
membership of the tier in the available-tier list.  Returns the (possibly
tier-defaulted) request, mirroring the in-place mutation of `req`. -/
def validateTeamRequest (km : KMConfig) (req : CreateTeamRequest) :
    Except GoErr CreateTeamRequest :=
  if ¬ isValidTeamID req.teamID then
    .error (.msg "team_id must contain only lowercase alphanumeric characters and hyphens, start and end with alphanumeric character, and be 1-63 characters long")
  else if req.teamName = "" then .error (.msg "team_name is required")
  else
    let req1 := if req.defaultTier = "" then
      { req with defaultTier := getDefaultTier km.envDefaultTier } else req
    if km.enablePolicyMgmt && ¬ getAvailableTiers.contains req1.defaultTier then
      .error (.msg ("invalid tier: " ++ req1.defaultTier))
    else .ok req1

/-- `createTeamConfigSecret`: the Team record written to the entity store. -/
def createTeamConfigSecret (km : KMConfig) (req : CreateTeamRequest) (ss : SecretStore) :
    Except GoErr (Secret × SecretStore) :=
  let secret : Secret :=
    { name := teamCfgName req.teamID,
      labels := [("maas/resource-type", "team-config"),
                 ("maas/team-id", req.teamID),
                 ("maas/tier", req.defaultTier)],
      annots := [("maas/team-name", req.teamName),
                 ("maas/description", req.description),
                 ("maas/default-tier", req.defaultTier),
                 ("maas/token-limit", toString req.tokenLimit),
                 ("maas/request-limit", toString req.requestLimit),
                 ("maas/time-window", req.timeWindow),
                 ("maas/created-at", km.now)],
      data := [("team_id", req.teamID), ("team_config", "active")] }
  match secretCreate ss secret with
  | .error e => .error e
  | .ok ss1 => .ok (secret, ss1)

/-- The override block of `createTeam`/`createTeamInternal`: a numeric
override is applied only when strictly positive, and a non-empty time
window replaces both the token and the request window. -/
def applyTeamOverrides (req : CreateTeamRequest) (limits : TierLimits) : TierLimits :=
  let l1 := if req.tokenLimit > 0 then { limits with tokenLimit := req.tokenLimit } else limits
  let l2 := if req.requestLimit > 0 then { l1 with requestLimit := req.requestLimit } else l1
  if req.timeWindow ≠ "" then
    { l2 with tokenWindow := req.timeWindow, requestWindow := req.timeWindow }
  else l2

/-- `createTeamInternal`: validate, check non-existence by direct lookup,
write the Team record, resolve limits and publish both policy kinds, and
on publish failure delete the just-written record (the error of that
delete is ignored by the source) before returning the wrapped publish
error.  The outer `Option` is `none` exactly when the tier fallback of
`GetTierLimits` diverges. -/
def createTeamInternal (km : KMConfig) (req : CreateTeamRequest) (st : SysState) :
    Option (Except GoErr Unit × SysState) :=
  match validateTeamRequest km req with
  | .error e => some (.error (.wrap "team validation failed: " e), st)
  | .ok req1 =>
    match secretGet st.secrets (teamCfgName req1.teamID) with
    | some _ => some (.error (.msg ("team " ++ req1.teamID ++ " already exists")), st)
    | none =>
      match createTeamConfigSecret km req1 st.secrets with
      | .error e => some (.error (.wrap "failed to create team secret: " e), st)
      | .ok (teamSecret, ss1) =>
        if km.enablePolicyMgmt then
          match getTierLimitsFuel 2 km.envDefaultTier req1.defaultTier with
          | none => none
          | some limits0 =>
            let limits := applyTeamOverrides req1 limits0
            match createTeamRateLimitPolicies req1.teamID limits st.tokenPolicies st.requestPolicies with
            | (.ok _, tp1, rp1) =>
              some (.ok (), { secrets := ss1, tokenPolicies := tp1, requestPolicies := rp1 })
            | (.error e, tp1, rp1) =>
              let ss2 := (secretDelete ss1 teamSecret.name).2
              some (.error (.wrap "failed to apply team policies: " e),
                    { secrets := ss2, tokenPolicies := tp1, requestPolicies := rp1 })
        else some (.ok (), { st with secrets := ss1 })

/-- The deterministic key-record name `apikey-{user}-{team}-{hash8}`. -/
def keySecretName (userID teamID apiKey : String) : String :=
  "apikey-" ++ userID ++ "-" ++ teamID ++ "-" ++ strTake (sha256hex apiKey) 8

/-- The key record `createEnhancedKeySecret` builds before creating it: hash
the secret, derive the record name and the 32-hex-character fingerprint label,
and resolve per-key limits (request overrides win over membership-derived
limits, a zero/empty override deferring to the member's value). -/
def enhancedKeySecret (km : KMConfig) (teamID : String) (req : CreateTeamKeyRequest)
    (apiKey : String) (member : TeamMember) : Secret :=
  let keyHash := sha256hex apiKey
  let secretName := keySecretName req.userID teamID apiKey
  let modelsAllowed0 := joinComma req.models
  let modelsAllowed := if modelsAllowed0 = "" then joinComma member.defaultModels
                       else modelsAllowed0
  let tokenLimit := if req.tokenLimit = 0 then member.tokenLimit else req.tokenLimit
  let requestLimit := if req.requestLimit = 0 then member.requestLimit else req.requestLimit
  let timeWindow := if req.timeWindow = "" then member.timeWindow else req.timeWindow
  let baseAnnots : List (String × String) :=
    [("maas/team-name", member.teamName),
     ("maas/user-email", member.userEmail),
     ("maas/token-limit", toString tokenLimit),
     ("maas/request-limit", toString requestLimit),
     ("maas/time-window", timeWindow),
     ("maas/models-allowed", modelsAllowed),
     ("maas/tier", member.tier),
     ("maas/created-at", km.now),
     ("maas/status", "active"),
     ("kuadrant.io/groups", "team-" ++ teamID ++ ",tier-" ++ member.tier)]
  let annots1 := if req.keyAlias ≠ "" then baseAnnots ++ [("maas/alias", req.keyAlias)]
                 else baseAnnots
  let annots2 := if req.customLimits ≠ [] then
      annots1 ++ [("maas/custom-limits", toString req.customLimits)]
    else annots1
  { name := secretName,
    labels := [("authorino.kuadrant.io/managed-by", "authorino"),
               ("kuadrant.io/apikeys-by", km.secretSelectorValue),
               ("maas/user-id", req.userID),
               ("maas/team-id", teamID),
               ("maas/team-role", member.role),
               ("maas/key-sha256", strTake keyHash 32),
               ("maas/tier", member.tier),
               ("maas/resource-type", "team-key")],
    annots := annots2,
    data := [("api_key", apiKey)] }

/-- `createEnhancedKeySecret`: build the key record and create it. -/
def createEnhancedKeySecret (km : KMConfig) (teamID : String) (req : CreateTeamKeyRequest)
    (apiKey : String) (member : TeamMember) (ss : SecretStore) :
    Except GoErr (Secret × SecretStore) :=
  let secret := enhancedKeySecret km teamID req apiKey member
  match secretCreate ss secret with
  | .error e => .error e
  | .ok ss1 => .ok (secret, ss1)

/-- `buildInheritedPolicies` (`none` = the tier fallback diverges). -/
def buildInheritedPolicies (km : KMConfig) (member : TeamMember) : Option InheritedInfo :=
  if ¬ km.enablePolicyMgmt then some (.basic member.tier member.teamID)
  else
    match getTierLimitsFuel 2 km.envDefaultTier member.tier with
    | none => none
    | some limits => some (.full
      { tier := member.tier, teamID := member.teamID,
        teamHourlyLimit := limits.tokenLimitPerHour,
        userHourlyLimit := Int.tdiv limits.tokenLimitPerHour 4,
        modelsAllowed := limits.modelsAllowed,
        budgetEnforcement := true,
        maxConcurrentRequests := limits.maxConcurrentRequests })

/-- `validateTeamMembershipFromAPIKey`: membership in a non-default team
is derived by listing API-key records labelled with the (team, user) pair;
zero matches means not a member, otherwise the first record found is
projected into a `TeamMember` (`none` = the tier fallback diverges). -/
def validateTeamMembershipFromAPIKey (km : KMConfig) (teamID userID : String)
    (ss : SecretStore) : Option (Except GoErr TeamMember) :=
  let sel := [("kuadrant.io/apikeys-by", "rhcl-keys"),
              ("maas/team-id", teamID), ("maas/user-id", userID)]
  match secretList ss sel with
  | [] => some (.error (.msg ("user " ++ userID ++ " is not a member of team " ++ teamID)))
  | secret :: _ =>
    let member : TeamMember :=
      { userID := userID, teamID := teamID,
        userEmail := (kvGet secret.annots "maas/user-email").getD "",
        role := (kvGet secret.labels "maas/team-role").getD "",
        teamName := (kvGet secret.annots "maas/team-name").getD "",
        tier := (kvGet secret.labels "maas/tier").getD "",
        defaultModels := [], joinedAt := "",
        tokenLimit := (kvGet secret.annots "maas/token-limit").elim 0 parseIntAnn,
        requestLimit := (kvGet secret.annots "maas/request-limit").elim 0 parseIntAnn,
        timeWindow := (kvGet secret.annots "maas/time-window").getD "" }
    if km.enablePolicyMgmt then
      match getTierLimitsFuel 2 km.envDefaultTier member.tier with
      | none => none
      | some limits => some (.ok { member with defaultModels := limits.modelsAllowed })
    else some (.ok member)

/-- `generateSecureToken`: read `length` random bytes (the `entropy`
argument stands for the outcome of `rand.Read`), base64url-encode them and
truncate the encoding to `length` characters; a read failure is returned
unchanged. -/
def generateSecureToken (entropy : Except GoErr (List Nat)) (length : Nat) :
    Except GoErr String :=
  match entropy with
  | .error e => .error e
  | .ok bytes => .ok (strTake (String.mk (base64urlEncodeList bytes)) length)

/-- `createTeamKeyInternal`: check the team exists, synthesize membership
for the reserved default team or derive it from existing key records
otherwise, generate the credential, write the key record, and assemble the
response (`none` = a tier fallback diverges). -/
def createTeamKeyInternal (km : KMConfig) (teamID : String) (req : CreateTeamKeyRequest)
    (entropy : Except GoErr (List Nat)) (st : SysState) :
    Option (Except GoErr CreateTeamKeyResponse × SysState) :=
  match secretGet st.secrets (teamCfgName teamID) with
  | none => some (.error (.wrap "team not found: " (.kubeNotFound (teamCfgName teamID))), st)
  | some _ =>
    let memberResult : Option (Except GoErr TeamMember) :=
      if teamID = "default" then
        match getTierLimitsFuel 2 km.envDefaultTier km.defaultTeamTier with
        | none => none
        | some limits => some (.ok
          { userID := req.userID, userEmail := req.userID ++ "@default.local",
            role := "member", tier := km.defaultTeamTier, teamID := teamID,
            teamName := "Default Team", defaultModels := limits.modelsAllowed,
            joinedAt := "",
            tokenLimit := limits.tokenLimit, requestLimit := limits.requestLimit,
            timeWindow := limits.tokenWindow })
      else validateTeamMembershipFromAPIKey km teamID req.userID st.secrets
    match memberResult with
    | none => none
    | some (.error e) => some (.error (.wrap "user is not a member of this team: " e), st)
    | some (.ok member) =>
      match generateSecureToken entropy 48 with
      | .error e => some (.error (.wrap "failed to generate API key: " e), st)
      | .ok apiKey =>
        match createEnhancedKeySecret km teamID req apiKey member st.secrets with
        | .error e => some (.error (.wrap "failed to create key secret: " e), st)
        | .ok (keySecret, ss1) =>
          let modelsAllowed := if req.models = [] then member.defaultModels else req.models
          match buildInheritedPolicies km member with
          | none => none
          | some inherited =>
            some (.ok
              { apiKey := apiKey, userID := req.userID, teamID := teamID,
                secretName := keySecret.name, modelsAllowed := modelsAllowed,
                tier := member.tier, tokenLimit := member.tokenLimit,
                requestLimit := member.requestLimit, timeWindow := member.timeWindow,
                inherited := inherited, customConstraints := req.customLimits },
              { st with secrets := ss1 })

/-- HTTP-level responses of the handlers modelled below. -/
inductive HttpResp where
  | ok (m : String)
  | badRequest (m : String)
  | notFound (m : String)
  | conflict (m : String)
  | serverError (m : String)
  | notImplemented (m : String)
deriving Repr, DecidableEq

/-- The legacy `deleteKey` handler (delete-by-presented-secret): recompute
the truncated SHA-256 fingerprint of the presented key, list records by
the fingerprint label, 404 on zero matches, otherwise delete the first
match.  `bindOk` stands for a well-formed JSON body. -/
def deleteKey (key : String) (bindOk : Bool) (ss : SecretStore) : HttpResp × SecretStore :=
  if ¬ bindOk then (.badRequest "bad request body", ss)
  else
    let keyHash := sha256hex key
    let sel := [("maas/key-sha256", strTake keyHash 32)]
    match secretList ss sel with
    | [] => (.notFound "API key not found", ss)
    | m :: _ =>
      match secretDelete ss m.name with
      | (.error _, ss1) => (.serverError "Failed to delete API key", ss1)
      | (.ok _, ss1) => (.ok m.name, ss1)

/-- The label selector of a team's API-key records. -/
def teamKeySelector (teamID : String) : List (String × String) :=
  [("kuadrant.io/apikeys-by", "rhcl-keys"), ("maas/team-id", teamID)]

/-- `deleteAllTeamKeys`: delete-collection by the team's key selector. -/
def deleteAllTeamKeys (teamID : String) (ss : SecretStore) :
    Except GoErr Unit × SecretStore :=
  secretDeleteCollection ss (teamKeySelector teamID)

/-- The `deleteTeam` handler: 404 when the team record is missing;
otherwise best-effort policy retraction (when policy management is
enabled), best-effort deletion of all the team's key records — both
failures only logged — and finally deletion of the Team record itself,
whose failure alone yields a 500. -/
def deleteTeam (km : KMConfig) (teamID : String) (st : SysState) : HttpResp × SysState :=
  match secretGet st.secrets (teamCfgName teamID) with
  | none => (.notFound "Team not found", st)
  | some teamSecret =>
    let (tp1, rp1) :=
      if km.enablePolicyMgmt then (deleteTeamPolicies teamID st.tokenPolicies st.requestPolicies).2
      else (st.tokenPolicies, st.requestPolicies)
    let ss1 := (deleteAllTeamKeys teamID st.secrets).2
    match secretDelete ss1 teamSecret.name with
    | (.error _, ss2) =>
      (.serverError "Failed to delete team",
       { secrets := ss2, tokenPolicies := tp1, requestPolicies := rp1 })
    | (.ok _, ss2) =>
      (.ok "Team deleted successfully",
       { secrets := ss2, tokenPolicies := tp1, requestPolicies := rp1 })

/-- The `syncTeamPolicies` handler: re-read the Team record, take only its
configured tier annotation, re-resolve that tier's limits and re-publish
both kinds unconditionally (upsert); the Team record itself is never
written.  `none` = the tier fallback diverges. -/
def syncTeamPolicies (km : KMConfig) (teamID : String) (bindOk : Bool) (st : SysState) :
    Option (HttpResp × SysState) :=
  if ¬ km.enablePolicyMgmt then some (.notImplemented "Policy management is disabled", st)
  else if ¬ bindOk then some (.badRequest "bad request body", st)
  else
    match secretGet st.secrets (teamCfgName teamID) with
    | none => some (.notFound "Team not found", st)
    | some teamSecret =>
      let tier := (kvGet teamSecret.annots "maas/default-tier").getD ""
      match getTierLimitsFuel 2 km.envDefaultTier tier with
      | none => none
      | some limits =>
        match createTeamRateLimitPolicies teamID limits st.tokenPolicies st.requestPolicies with
        | (.error _, tp1, rp1) =>
          some (.serverError "Failed to sync team policies",
                { st with tokenPolicies := tp1, requestPolicies := rp1 })
        | (.ok _, tp1, rp1) =>
          some (.ok "Team policies synchronized successfully",
                { st with tokenPolicies := tp1, requestPolicies := rp1 })

/-! ### Concrete fixtures used by witnesses and counterexamples -/

/-- A key-manager configuration with the default environment values. -/
def km0 : KMConfig :=
  { enablePolicyMgmt := true, envDefaultTier := none, defaultTeamTier := "standard",
    secretSelectorValue := "rhcl-keys", now := "2025-01-01T00:00:00Z" }

/-- The empty external state. -/
def st0 : SysState :=
  { secrets := { items := [] }, tokenPolicies := { objs := [] }, requestPolicies := { objs := [] } }

/-- A plain create-team request for team `t1` on the free tier. -/
def reqT1 : CreateTeamRequest :=
  { teamID := "t1", teamName := "Team One", description := "", defaultTier := "free",
    tokenLimit := 0, requestLimit := 0, timeWindow := "" }

/-- A plain create-key request for user `alice`. -/
def reqKeyAlice : CreateTeamKeyRequest :=
  { userID := "alice", keyAlias := "", models := [], inheritTeamLimits := true,
    tokenLimit := 0, requestLimit := 0, timeWindow := "", customLimits := [] }

/-- The default team's config record as `createDefaultTeamOnStartup` writes it. -/
def defaultTeamCfg : Secret :=
  { name := "team-default-config",
    labels := [("maas/resource-type", "team-config"), ("maas/team-id", "default"),
               ("maas/tier", "standard")],
    annots := [("maas/default-tier", "standard")],
    data := [("team_id", "default"), ("team_config", "active")] }

/-- A Team record for `t1` on the free tier with no overrides. -/
def teamT1Cfg : Secret :=
  { name := "team-t1-config",
    labels := [("maas/resource-type", "team-config"), ("maas/team-id", "t1"),
               ("maas/tier", "free")],
    annots := [("maas/team-name", "Team One"), ("maas/description", ""),
               ("maas/default-tier", "free"), ("maas/token-limit", "0"),
               ("maas/request-limit", "0"), ("maas/time-window", ""),
               ("maas/created-at", "2025-01-01T00:00:00Z")],
    data := [("team_id", "t1"), ("team_config", "active")] }

/-- A Team record for `t1` on the free tier carrying a stored token-limit
override of `123` in its annotations. -/
def teamT1CfgOverride : Secret :=
  { name := "team-t1-config",
    labels := [("maas/resource-type", "team-config"), ("maas/team-id", "t1"),
               ("maas/tier", "free")],
    annots := [("maas/team-name", "Team One"), ("maas/description", ""),
               ("maas/default-tier", "free"), ("maas/token-limit", "123"),
               ("maas/request-limit", "0"), ("maas/time-window", ""),
               ("maas/created-at", "2025-01-01T00:00:00Z")],
    data := [("team_id", "t1"), ("team_config", "active")] }

/-- A state holding only `teamT1CfgOverride`. -/
def stOverride : SysState :=
  { secrets := { items := [teamT1CfgOverride] },
    tokenPolicies := { objs := [] }, requestPolicies := { objs := [] } }

/-- A state holding only the default team's config record. -/
def stDefaultTeam : SysState :=
  { secrets := { items := [defaultTeamCfg] },
    tokenPolicies := { objs := [] }, requestPolicies := { objs := [] } }

/-! ### Helper lemmas -/

theorem getDefaultTier_ne_empty (env : Option String) : getDefaultTier env ≠ "" := by
  cases env with
  | none => simp [getDefaultTier]
  | some v =>
    simp only [getDefaultTier]
    by_cases h : v = "" <;> simp [h]

theorem getTierLimitsFuel_succ (fuel : Nat) (env : Option String) (tier : String) :
    getTierLimitsFuel (fuel + 1) env tier =
      match lookupTier (if tier = "" then getDefaultTier env else tier) with
      | some l => some l
      | none => getTierLimitsFuel fuel env (getDefaultTier env) := rfl

theorem base64urlEncodeList_length :
    ∀ l : List Nat, (base64urlEncodeList l).length = 4 * ((l.length + 2) / 3)
  | [] => by simp [base64urlEncodeList]
  | [_] => by simp [base64urlEncodeList]
  | [_, _] => by simp [base64urlEncodeList]
  | _ :: _ :: _ :: rest => by
    have ih := base64urlEncodeList_length rest
    simp only [base64urlEncodeList, List.length_cons, ih]
    omega

/-- Claim C10: for a positive byte length `n`, the URL-safe base64 encoding of
`n` random bytes has length `4 * ceil(n / 3) ≥ n`, so truncating to `n`
characters is in bounds; on success `generateSecureToken` returns exactly `n`
characters, and it returns an error exactly when the random read fails. -/
theorem generateSecureToken_total_and_exact (n : Nat) (bytes : List Nat) (e : GoErr)
    (hn : 0 < n) (hlen : bytes.length = n) :
    (base64urlEncodeList bytes).length = 4 * ((n + 2) / 3) ∧
    n ≤ (base64urlEncodeList bytes).length ∧
    generateSecureToken (.ok bytes) n =
      .ok (strTake (String.mk (base64urlEncodeList bytes)) n) ∧
    (∀ s, generateSecureToken (.ok bytes) n = .ok s → s.length = n) ∧
    generateSecureToken (.error e) n = .error e := by
  have hlen4 : (base64urlEncodeList bytes).length = 4 * ((n + 2) / 3) := by
    rw [base64urlEncodeList_length, hlen]
  have hge : n ≤ (base64urlEncodeList bytes).length := by
    rw [hlen4]; omega
  refine ⟨hlen4, hge, rfl, ?_, rfl⟩
  intro s hs
  have hs1 : strTake (String.mk (base64urlEncodeList bytes)) n = s := by
    simpa [generateSecureToken] using hs
  rw [← hs1]
  simp [strTake, String.length, List.length_take]
  omega

theorem generateSecureToken_total_and_exact_witness :
    (base64urlEncodeList [10, 20, 30, 40, 50]).length = 4 * ((5 + 2) / 3) ∧
    5 ≤ (base64urlEncodeList [10, 20, 30, 40, 50]).length ∧
    generateSecureToken (.ok [10, 20, 30, 40, 50]) 5 =
      .ok (strTake (String.mk (base64urlEncodeList [10, 20, 30, 40, 50])) 5) ∧
    (∀ s, generateSecureToken (.ok [10, 20, 30, 40, 50]) 5 = .ok s → s.length = 5) ∧
    generateSecureToken (.error (.msg "entropy exhausted")) 5 = .error (.msg "entropy exhausted") :=
  generateSecureToken_total_and_exact 5 [10, 20, 30, 40, 50] (.msg "entropy exhausted")
    (by decide) (by decide)

/-- Claim C2 (amended): whenever the configured default tier name resolves to a
tier present in the table, `GetTierLimits` on a tier name not in the table
terminates, performs exactly one fallback recursion, and returns the default
tier's limits; termination within two calls is stable under any extra fuel. -/
theorem getTierLimits_unknown_falls_back (env : Option String) (tier : String)
    (dl : TierLimits)
    (hdef : lookupTier (getDefaultTier env) = some dl)
    (htier : lookupTier tier = none) (hne : tier ≠ "") :
    getTierLimitsFuel 2 env tier = some dl ∧
    getTierLimitsFuel 2 env tier = getTierLimitsFuel 1 env (getDefaultTier env) ∧
    (∀ fuel : Nat, getTierLimitsFuel (fuel + 2) env tier = some dl) := by
  have hd := getDefaultTier_ne_empty env
  have step1 : ∀ fuel : Nat, getTierLimitsFuel (fuel + 1) env (getDefaultTier env) = some dl := by
    intro fuel
    rw [getTierLimitsFuel_succ, if_neg hd, hdef]
  have step2 : ∀ fuel : Nat, getTierLimitsFuel (fuel + 2) env tier
      = getTierLimitsFuel (fuel + 1) env (getDefaultTier env) := by
    intro fuel
    show getTierLimitsFuel ((fuel + 1) + 1) env tier = _
    rw [getTierLimitsFuel_succ, if_neg hne, htier]
  have h2 : getTierLimitsFuel 2 env tier = some dl := by
    have := step2 0
    rw [show (0 + 2 : Nat) = 2 from rfl, show (0 + 1 : Nat) = 1 from rfl] at this
    rw [this]
    exact step1 0
  refine ⟨h2, ?_, fun fuel => by rw [step2 fuel, step1 fuel]⟩
  rw [h2]
  have := step1 0
  rw [show (0 + 1 : Nat) = 1 from rfl] at this
  rw [this]

theorem getTierLimits_unknown_falls_back_witness :
    getTierLimitsFuel 2 none "mystery-tier"
      = some ((lookupTier "standard").getD
          { tokenLimit := 0, tokenWindow := "", requestLimit := 0, requestWindow := "",
            modelsAllowed := [], tokenLimitPerHour := 0, tokenLimitPerDay := 0,
            maxConcurrentRequests := 0 }) :=
  (getTierLimits_unknown_falls_back none "mystery-tier" _
    (by decide) (by decide) (by decide)).1

/-- Claim C2 counterexample: with the configured default tier itself unknown
(`DEFAULT_TIER=bogus`), the fallback recursion of `GetTierLimits` on an unknown
tier name never terminates — no fuel yields a result — refuting the claim that
no value of the configured default tier name can make it loop. -/
theorem getTierLimits_diverges_on_unknown_default :
    getTierLimitsDiverges (some "bogus") "mystery-tier" := by
  have key : ∀ fuel : Nat, getTierLimitsFuel fuel (some "bogus") "bogus" = none := by
    intro fuel
    induction fuel with
    | zero => rfl
    | succ f ih =>
      rw [getTierLimitsFuel_succ]
      simpa [getDefaultTier] using ih
  intro fuel
  cases fuel with
  | zero => rfl
  | succ f =>
    rw [getTierLimitsFuel_succ]
    simpa [getDefaultTier] using key f

/-- Claim C7 counterexample: in `CreateTeam` limit resolution an override of
`-5` is present and non-zero, yet it does not replace the free tier's token
default (the code applies numeric overrides only when strictly positive), so
"replaces iff present and non-zero" fails. -/
theorem applyTeamOverrides_negative_override_ignored :
    (applyTeamOverrides
        { teamID := "t1", teamName := "Team One", description := "",
          defaultTier := "free", tokenLimit := -5, requestLimit := 0, timeWindow := "" }
        ((lookupTier "free").getD
          { tokenLimit := 0, tokenWindow := "", requestLimit := 0, requestWindow := "",
            modelsAllowed := [], tokenLimitPerHour := 0, tokenLimitPerDay := 0,
            maxConcurrentRequests := 0 })).tokenLimit = 2000 ∧
    (-5 : Int) ≠ 0 ∧ (2000 : Int) ≠ -5 := by decide

/-- Claim C7 (amended): a numeric override replaces the corresponding tier
default iff it is strictly positive (zero and negative values, including a
negative non-zero value, leave the default, so an unlimited `-1` default
survives any non-positive override); a non-empty time-window override sets both
windows; every other field of the tier default is untouched. -/
theorem applyTeamOverrides_characterization (req : CreateTeamRequest) (limits : TierLimits) :
    (applyTeamOverrides req limits).tokenLimit
        = (if req.tokenLimit > 0 then req.tokenLimit else limits.tokenLimit) ∧
    (applyTeamOverrides req limits).requestLimit
        = (if req.requestLimit > 0 then req.requestLimit else limits.requestLimit) ∧
    (applyTeamOverrides req limits).tokenWindow
        = (if req.timeWindow ≠ "" then req.timeWindow else limits.tokenWindow) ∧
    (applyTeamOverrides req limits).requestWindow
        = (if req.timeWindow ≠ "" then req.timeWindow else limits.requestWindow) ∧
    (applyTeamOverrides req limits).modelsAllowed = limits.modelsAllowed ∧
    (applyTeamOverrides req limits).tokenLimitPerHour = limits.tokenLimitPerHour ∧
    (applyTeamOverrides req limits).tokenLimitPerDay = limits.tokenLimitPerDay ∧
    (applyTeamOverrides req limits).maxConcurrentRequests = limits.maxConcurrentRequests ∧
    (req.tokenLimit = 0 → (applyTeamOverrides req limits).tokenLimit = limits.tokenLimit) ∧
    (limits.tokenLimit = -1 → req.tokenLimit ≤ 0 →
      (applyTeamOverrides req limits).tokenLimit = -1) ∧
    (limits.requestLimit = -1 → req.requestLimit ≤ 0 →
      (applyTeamOverrides req limits).requestLimit = -1) := by
  unfold applyTeamOverrides
  by_cases h1 : req.tokenLimit > 0 <;> by_cases h2 : req.requestLimit > 0 <;>
    by_cases h3 : req.timeWindow ≠ "" <;>
    simp [h1, h2, h3] <;> omega

theorem applyTeamOverrides_characterization_witness :
    (applyTeamOverrides
        { teamID := "t1", teamName := "Team One", description := "",
          defaultTier := "free", tokenLimit := 0, requestLimit := 0, timeWindow := "" }
        ((lookupTier "free").getD
          { tokenLimit := 0, tokenWindow := "", requestLimit := 0, requestWindow := "",
            modelsAllowed := [], tokenLimitPerHour := 0, tokenLimitPerDay := 0,
            maxConcurrentRequests := 0 })).tokenLimit = 2000 := by
  have h := (applyTeamOverrides_characterization
    { teamID := "t1", teamName := "Team One", description := "",
      defaultTier := "free", tokenLimit := 0, requestLimit := 0, timeWindow := "" }
    ((lookupTier "free").getD
      { tokenLimit := 0, tokenWindow := "", requestLimit := 0, requestWindow := "",
        modelsAllowed := [], tokenLimitPerHour := 0, tokenLimitPerDay := 0,
        maxConcurrentRequests := 0 })).1
  rw [h]; decide


theorem applyTeamOverrides_token_nonpos (req : CreateTeamRequest) (limits : TierLimits)
    (h : limits.tokenLimit = -1) (h2 : req.tokenLimit ≤ 0) :
    (applyTeamOverrides req limits).tokenLimit = -1 := by
  unfold applyTeamOverrides
  have hneg : ¬ req.tokenLimit > 0 := by omega
  by_cases hw : req.timeWindow ≠ "" <;> by_cases hr : req.requestLimit > 0 <;>
    simp [hneg, hw, hr, h]

theorem applyTeamOverrides_request_nonpos (req : CreateTeamRequest) (limits : TierLimits)
    (h : limits.requestLimit = -1) (h2 : req.requestLimit ≤ 0) :
    (applyTeamOverrides req limits).requestLimit = -1 := by
  unfold applyTeamOverrides
  have hneg : ¬ req.requestLimit > 0 := by omega
  by_cases hw : req.timeWindow ≠ "" <;> by_cases ht : req.tokenLimit > 0 <;>
    simp [hneg, hw, ht, h]

theorem createTeamRateLimitPolicies_skip (teamID : String) (limits : TierLimits)
    (tp rp : PolicyStore) (h1 : limits.tokenLimit = -1) (h2 : limits.requestLimit = -1) :
    createTeamRateLimitPolicies teamID limits tp rp = (.ok (), tp, rp) := by
  simp [createTeamRateLimitPolicies, createTeamTokenRateLimit, createTeamRequestRateLimit, h1, h2]

/-- Claim C4: publication of either policy kind returns success with no
enforcement object created or updated whenever the relevant limit is the
unlimited sentinel `-1` or the team is the reserved `"default"` team, and
creating a team on the `unlimited` tier (without positive overrides)
publishes no enforcement object of either kind. -/
theorem publish_skips_unlimited_and_default
    (teamID nameT nameR : String) (limits : TierLimits) (tp rp : PolicyStore)
    (km : KMConfig) (req : CreateTeamRequest) (st : SysState)
    (htok : limits.tokenLimit = -1 ∨ teamID = "default")
    (hreq : limits.requestLimit = -1 ∨ teamID = "default")
    (hvalid : isValidTeamID req.teamID = true)
    (hnm : req.teamName ≠ "")
    (htier : req.defaultTier = "unlimited")
    (hnx : secretGet st.secrets (teamCfgName req.teamID) = none)
    (hpm : km.enablePolicyMgmt = true)
    (hot : req.tokenLimit ≤ 0) (hor : req.requestLimit ≤ 0) :
    createTeamTokenRateLimit teamID nameT limits tp = (.ok (), tp) ∧
    createTeamRequestRateLimit teamID nameR limits rp = (.ok (), rp) ∧
    (∃ st1, createTeamInternal km req st = some (.ok (), st1) ∧
      st1.tokenPolicies = st.tokenPolicies ∧ st1.requestPolicies = st.requestPolicies) := by
  refine ⟨?_, ?_, ?_⟩
  · rcases htok with h | h
    · simp [createTeamTokenRateLimit, h]
    · by_cases hl : limits.tokenLimit = -1 <;> simp [createTeamTokenRateLimit, h, hl]
  · rcases hreq with h | h
    · simp [createTeamRequestRateLimit, h]
    · by_cases hl : limits.requestLimit = -1 <;> simp [createTeamRequestRateLimit, h, hl]
  · have hval : validateTeamRequest km req = .ok req := by
      simp [validateTeamRequest, hvalid, hnm, htier, getAvailableTiers]
    have hlim : getTierLimitsFuel 2 km.envDefaultTier req.defaultTier = some
        { tokenLimit := -1, tokenWindow := "1h", requestLimit := -1, requestWindow := "1h",
          modelsAllowed := ["*"], tokenLimitPerHour := -1, tokenLimitPerDay := -1,
          maxConcurrentRequests := -1 } := by
      rw [htier]; rfl
    have hskip := createTeamRateLimitPolicies_skip req.teamID
      (applyTeamOverrides req
        { tokenLimit := -1, tokenWindow := "1h", requestLimit := -1, requestWindow := "1h",
          modelsAllowed := ["*"], tokenLimitPerHour := -1, tokenLimitPerDay := -1,
          maxConcurrentRequests := -1 })
      st.tokenPolicies st.requestPolicies
      (applyTeamOverrides_token_nonpos req _ rfl hot)
      (applyTeamOverrides_request_nonpos req _ rfl hor)
    simp only [createTeamInternal, hval, hnx, createTeamConfigSecret, secretCreate, hpm,
      if_true, hlim, hskip]
    exact ⟨_, rfl, rfl, rfl⟩


theorem map_upsert_of_no_match {l : List PolicyObj} {n : String} (g : PolicyObj → PolicyObj)
    (h : l.find? (fun o => o.name = n) = none) :
    l.map (fun o => if o.name = n then g o else o) = l := by
  rw [List.find?_eq_none] at h
  induction l with
  | nil => rfl
  | cons a t ih =>
    have ha := h a (by simp)
    simp only [decide_eq_true_eq] at ha
    simp only [List.map_cons, if_neg ha]
    rw [ih (fun x hx => h x (by simp [hx]))]

theorem filter_name_nil_of_find?_none {l : List PolicyObj} {n : String}
    (h : l.find? (fun o => o.name = n) = none) :
    l.filter (fun o => o.name = n) = [] := by
  rw [List.find?_eq_none] at h
  rw [List.filter_eq_nil_iff]
  exact h

/-- The fresh-create path of the token-policy upsert. -/
theorem createTeamTokenRateLimit_fresh (teamID name : String) (limits : TierLimits)
    (tp : PolicyStore) (hT : limits.tokenLimit ≠ -1) (hteam : teamID ≠ "default")
    (hi : tp.injCreateFail = none) (hf : policyGet tp name = none) :
    createTeamTokenRateLimit teamID name limits tp =
      (.ok (), { tp with
        objs := tp.objs ++
          [{ name := name, teamID := teamID, limit := limits.tokenLimit,
             window := limits.tokenWindow, counterExpr := "auth.identity.userid",
             predicate := teamPredicate teamID, resourceVersion := 1, uid := tp.nextUid }],
        nextUid := tp.nextUid + 1 }) := by
  simp [createTeamTokenRateLimit, policyCreate, hT, hteam, hi, hf]

/-- The already-exists/update path of the token-policy upsert. -/
theorem createTeamTokenRateLimit_existing (teamID name : String) (limits : TierLimits)
    (tp : PolicyStore) (ex : PolicyObj) (hT : limits.tokenLimit ≠ -1)
    (hteam : teamID ≠ "default") (hi : tp.injCreateFail = none)
    (hf : policyGet tp name = some ex) :
    createTeamTokenRateLimit teamID name limits tp =
      (.ok (), { tp with objs := tp.objs.map (fun o =>
        if o.name = name then
          { name := name, teamID := teamID, limit := limits.tokenLimit,
            window := limits.tokenWindow, counterExpr := "auth.identity.userid",
            predicate := teamPredicate teamID, resourceVersion := ex.resourceVersion + 1,
            uid := ex.uid }
        else o) }) := by
  simp [createTeamTokenRateLimit, policyCreate, policyUpdate, errContainsAlreadyExists,
    hT, hteam, hi, hf]

/-- The fresh-create path of the request-policy upsert. -/
theorem createTeamRequestRateLimit_fresh (teamID name : String) (limits : TierLimits)
    (rp : PolicyStore) (hR : limits.requestLimit ≠ -1) (hteam : teamID ≠ "default")
    (hi : rp.injCreateFail = none) (hf : policyGet rp name = none) :
    createTeamRequestRateLimit teamID name limits rp =
      (.ok (), { rp with
        objs := rp.objs ++
          [{ name := name, teamID := teamID, limit := limits.requestLimit,
             window := limits.requestWindow, counterExpr := "auth.identity.userid",
             predicate := teamPredicate teamID, resourceVersion := 1, uid := rp.nextUid }],
        nextUid := rp.nextUid + 1 }) := by
  simp [createTeamRequestRateLimit, policyCreate, hR, hteam, hi, hf]

/-- The already-exists/update path of the request-policy upsert. -/
theorem createTeamRequestRateLimit_existing (teamID name : String) (limits : TierLimits)
    (rp : PolicyStore) (ex : PolicyObj) (hR : limits.requestLimit ≠ -1)
    (hteam : teamID ≠ "default") (hi : rp.injCreateFail = none)
    (hf : policyGet rp name = some ex) :
    createTeamRequestRateLimit teamID name limits rp =
      (.ok (), { rp with objs := rp.objs.map (fun o =>
        if o.name = name then
          { name := name, teamID := teamID, limit := limits.requestLimit,
            window := limits.requestWindow, counterExpr := "auth.identity.userid",
            predicate := teamPredicate teamID, resourceVersion := ex.resourceVersion + 1,
            uid := ex.uid }
        else o) }) := by
  simp [createTeamRequestRateLimit, policyCreate, policyUpdate, errContainsAlreadyExists,
    hR, hteam, hi, hf]

/-- Claim C5: publishing the same (team, kind) enforcement policy twice is
idempotent: both calls succeed, exactly one object with the deterministic name
exists afterwards, the second call goes through the already-exists branch —
its create fails with already-exists, the existing object's resource version
and UID are copied onto the new definition, and the update is issued with that
metadata, so the surviving object keeps the first call's UID with its version
bumped by one and carries the submitted limits; a create failure other than
already-exists aborts the call with an error and leaves the store unchanged.
Both policy kinds behave this way. -/
theorem publish_twice_idempotent
    (teamID nameT nameR m : String) (limits : TierLimits) (tp rp : PolicyStore)
    (hT : limits.tokenLimit ≠ -1) (hR : limits.requestLimit ≠ -1)
    (hteam : teamID ≠ "default")
    (hfT : policyGet tp nameT = none) (hiT : tp.injCreateFail = none)
    (hfR : policyGet rp nameR = none) (hiR : rp.injCreateFail = none)
    (hm : containsSubstr m "already exists" = false) :
    ((createTeamTokenRateLimit teamID nameT limits tp).1 = .ok () ∧
     (createTeamTokenRateLimit teamID nameT limits
        (createTeamTokenRateLimit teamID nameT limits tp).2).1 = .ok () ∧
     (((createTeamTokenRateLimit teamID nameT limits
        (createTeamTokenRateLimit teamID nameT limits tp).2).2).objs.filter
          (fun o => o.name = nameT)).length = 1 ∧
     (∃ o1 o2,
        policyGet (createTeamTokenRateLimit teamID nameT limits tp).2 nameT = some o1 ∧
        policyGet (createTeamTokenRateLimit teamID nameT limits
          (createTeamTokenRateLimit teamID nameT limits tp).2).2 nameT = some o2 ∧
        o2.uid = o1.uid ∧ o2.resourceVersion = o1.resourceVersion + 1 ∧
        o2.limit = limits.tokenLimit ∧ o2.window = limits.tokenWindow)) ∧
    ((createTeamRequestRateLimit teamID nameR limits rp).1 = .ok () ∧
     (createTeamRequestRateLimit teamID nameR limits
        (createTeamRequestRateLimit teamID nameR limits rp).2).1 = .ok () ∧
     (((createTeamRequestRateLimit teamID nameR limits
        (createTeamRequestRateLimit teamID nameR limits rp).2).2).objs.filter
          (fun o => o.name = nameR)).length = 1 ∧
     (∃ o1 o2,
        policyGet (createTeamRequestRateLimit teamID nameR limits rp).2 nameR = some o1 ∧
        policyGet (createTeamRequestRateLimit teamID nameR limits
          (createTeamRequestRateLimit teamID nameR limits rp).2).2 nameR = some o2 ∧
        o2.uid = o1.uid ∧ o2.resourceVersion = o1.resourceVersion + 1 ∧
        o2.limit = limits.requestLimit ∧ o2.window = limits.requestWindow)) ∧
    (createTeamTokenRateLimit teamID nameT limits { tp with injCreateFail := some m }
      = (.error (.wrap "failed to create TokenRateLimitPolicy: " (.injected m)),
         { tp with injCreateFail := some m })) ∧
    (createTeamRequestRateLimit teamID nameR limits { rp with injCreateFail := some m }
      = (.error (.wrap "failed to create RateLimitPolicy: " (.injected m)),
         { rp with injCreateFail := some m })) := by
  have h1 := createTeamTokenRateLimit_fresh teamID nameT limits tp hT hteam hiT hfT
  have hget1 : policyGet (createTeamTokenRateLimit teamID nameT limits tp).2 nameT =
      some { name := nameT, teamID := teamID, limit := limits.tokenLimit,
             window := limits.tokenWindow, counterExpr := "auth.identity.userid",
             predicate := teamPredicate teamID, resourceVersion := 1, uid := tp.nextUid } := by
    rw [h1]
    simp only [policyGet] at hfT ⊢
    rw [List.find?_append, hfT]
    simp
  have h2 := createTeamTokenRateLimit_existing teamID nameT limits
    (createTeamTokenRateLimit teamID nameT limits tp).2 _ hT hteam (by rw [h1]; exact hiT) hget1
  have hmap : ((createTeamTokenRateLimit teamID nameT limits tp).2).objs.map (fun o =>
      if o.name = nameT then
        { name := nameT, teamID := teamID, limit := limits.tokenLimit,
          window := limits.tokenWindow, counterExpr := "auth.identity.userid",
          predicate := teamPredicate teamID, resourceVersion := 1 + 1,
          uid := tp.nextUid } else o)
      = tp.objs ++
        [{ name := nameT, teamID := teamID, limit := limits.tokenLimit,
           window := limits.tokenWindow, counterExpr := "auth.identity.userid",
           predicate := teamPredicate teamID, resourceVersion := 1 + 1, uid := tp.nextUid }] := by
    rw [h1]
    simp only [List.map_append]
    rw [map_upsert_of_no_match _ hfT]
    simp
  refine ⟨⟨by rw [h1], by rw [h2], ?_, ?_⟩, ?_, ?_, ?_⟩
  · rw [h2]
    simp only [hmap, List.filter_append]
    rw [filter_name_nil_of_find?_none hfT]
    simp
  · refine ⟨{ name := nameT, teamID := teamID, limit := limits.tokenLimit,
              window := limits.tokenWindow, counterExpr := "auth.identity.userid",
              predicate := teamPredicate teamID, resourceVersion := 1, uid := tp.nextUid },
            { name := nameT, teamID := teamID, limit := limits.tokenLimit,
              window := limits.tokenWindow, counterExpr := "auth.identity.userid",
              predicate := teamPredicate teamID, resourceVersion := 1 + 1, uid := tp.nextUid },
            hget1, ?_, rfl, rfl, rfl, rfl⟩
    rw [h2]
    simp only [policyGet] at hfT ⊢
    rw [hmap, List.find?_append, hfT]
    simp
  · have g1 := createTeamRequestRateLimit_fresh teamID nameR limits rp hR hteam hiR hfR
    have gget1 : policyGet (createTeamRequestRateLimit teamID nameR limits rp).2 nameR =
        some { name := nameR, teamID := teamID, limit := limits.requestLimit,
               window := limits.requestWindow, counterExpr := "auth.identity.userid",
               predicate := teamPredicate teamID, resourceVersion := 1, uid := rp.nextUid } := by
      rw [g1]
      simp only [policyGet] at hfR ⊢
      rw [List.find?_append, hfR]
      simp
    have g2 := createTeamRequestRateLimit_existing teamID nameR limits
      (createTeamRequestRateLimit teamID nameR limits rp).2 _ hR hteam (by rw [g1]; exact hiR) gget1
    have gmap : ((createTeamRequestRateLimit teamID nameR limits rp).2).objs.map (fun o =>
        if o.name = nameR then
          { name := nameR, teamID := teamID, limit := limits.requestLimit,
            window := limits.requestWindow, counterExpr := "auth.identity.userid",
            predicate := teamPredicate teamID, resourceVersion := 1 + 1,
            uid := rp.nextUid } else o)
        = rp.objs ++
          [{ name := nameR, teamID := teamID, limit := limits.requestLimit,
             window := limits.requestWindow, counterExpr := "auth.identity.userid",
             predicate := teamPredicate teamID, resourceVersion := 1 + 1, uid := rp.nextUid }] := by
      rw [g1]
      simp only [List.map_append]
      rw [map_upsert_of_no_match _ hfR]
      simp
    refine ⟨by rw [g1], by rw [g2], ?_, ?_⟩
    · rw [g2]
      simp only [gmap, List.filter_append]
      rw [filter_name_nil_of_find?_none hfR]
      simp
    · refine ⟨{ name := nameR, teamID := teamID, limit := limits.requestLimit,
                window := limits.requestWindow, counterExpr := "auth.identity.userid",
                predicate := teamPredicate teamID, resourceVersion := 1, uid := rp.nextUid },
              { name := nameR, teamID := teamID, limit := limits.requestLimit,
                window := limits.requestWindow, counterExpr := "auth.identity.userid",
                predicate := teamPredicate teamID, resourceVersion := 1 + 1, uid := rp.nextUid },
              gget1, ?_, rfl, rfl, rfl, rfl⟩
      rw [g2]
      simp only [policyGet] at hfR ⊢
      rw [gmap, List.find?_append, hfR]
      simp
  · simp [createTeamTokenRateLimit, policyCreate, errContainsAlreadyExists, hT, hteam, hm]
  · simp [createTeamRequestRateLimit, policyCreate, errContainsAlreadyExists, hR, hteam, hm]

theorem errIs_self (e : GoErr) : errIs e e = true := by
  cases e <;> simp [errIs]

theorem secret_filter_name_eq_self {l : List Secret} {n : String}
    (h : l.find? (fun s => s.name = n) = none) :
    l.filter (fun s => s.name ≠ n) = l := by
  rw [List.find?_eq_none] at h
  rw [List.filter_eq_self]
  intro a ha
  have := h a ha
  simp only [decide_eq_true_eq] at this
  simp [this]

/-- Claim C1: whenever `createTeamInternal` has written the Team record
successfully and the subsequent policy publication fails, the engine deletes
the just-written Team record before returning — the secrets store is exactly
as before the call and the team's record does not exist — and the returned
error wraps (in the sense of `errors.Is`) the original publish error. -/
theorem createTeam_publish_failure_rolls_back
    (km : KMConfig) (req req1 : CreateTeamRequest) (st : SysState)
    (epub : GoErr) (tp1 rp1 : PolicyStore) (limits0 : TierLimits)
    (hval : validateTeamRequest km req = .ok req1)
    (hnx : secretGet st.secrets (teamCfgName req1.teamID) = none)
    (hpm : km.enablePolicyMgmt = true)
    (hinj : st.secrets.injDeleteFail = none)
    (hlim : getTierLimitsFuel 2 km.envDefaultTier req1.defaultTier = some limits0)
    (hpub : createTeamRateLimitPolicies req1.teamID (applyTeamOverrides req1 limits0)
        st.tokenPolicies st.requestPolicies = (.error epub, tp1, rp1)) :
    createTeamInternal km req st =
      some (.error (.wrap "failed to apply team policies: " epub),
        { secrets := st.secrets, tokenPolicies := tp1, requestPolicies := rp1 }) ∧
    secretGet st.secrets (teamCfgName req1.teamID) = none ∧
    errIs (.wrap "failed to apply team policies: " epub) epub = true := by
  have hff : st.secrets.items.find? (fun s => s.name = teamCfgName req1.teamID) = none := hnx
  constructor
  · simp only [createTeamInternal, hval, hnx, createTeamConfigSecret, secretCreate, hpm,
      if_true, hlim, hpub]
    simp only [secretDelete, hinj]
    simp only [secretGet, List.find?_append, hff, Option.none_or]
    simp only [List.find?_cons, decide_eq_true_eq]
    simp only [List.filter_append]
    rw [secret_filter_name_eq_self hff]
    simp
    rw [← hinj]
  · refine ⟨hnx, ?_⟩
    simp only [errIs, errIs_self epub, Bool.or_true]

/-- Claim C9 counterexample: a team whose record stores tier `free` and a
stored token-limit override `123` is synced to an enforcement object carrying
the free tier's default `2000`, not the team's effective limit `123` — the
sync handler reads only the tier annotation and never applies the stored
overrides. -/
theorem sync_ignores_stored_overrides :
    (syncTeamPolicies km0 "t1" true stOverride).map
        (fun r => r.2.tokenPolicies.objs.map (fun o => o.limit)) = some [2000] ∧
    (stOverride.secrets.items.head?.map
        (fun s => kvGet s.annots "maas/token-limit")) = some (some "123") ∧
    (2000 : Int) ≠ 123 := by decide

/-- Claim C9 (amended): `syncTeamPolicies` on an existing team reads the team
record's configured tier annotation (but not its stored overrides), re-runs
the limit resolver and the policy publisher unconditionally as an upsert, and
does not mutate any record in the entity store; the republished enforcement
limits equal the configured tier's default limits. -/
theorem syncTeamPolicies_republishes_tier_defaults
    (km : KMConfig) (teamID : String) (st : SysState) (ts : Secret) (limits : TierLimits)
    (hpm : km.enablePolicyMgmt = true)
    (hteamGet : secretGet st.secrets (teamCfgName teamID) = some ts)
    (hlim : getTierLimitsFuel 2 km.envDefaultTier
        ((kvGet ts.annots "maas/default-tier").getD "") = some limits)
    (hT : limits.tokenLimit ≠ -1) (hR : limits.requestLimit ≠ -1)
    (hteam : teamID ≠ "default")
    (hfT : policyGet st.tokenPolicies ("team-" ++ teamID ++ "-token-limits") = none)
    (hiT : st.tokenPolicies.injCreateFail = none)
    (hfR : policyGet st.requestPolicies ("team-" ++ teamID ++ "-request-limits") = none)
    (hiR : st.requestPolicies.injCreateFail = none) :
    ∃ st1, syncTeamPolicies km teamID true st
        = some (.ok "Team policies synchronized successfully", st1) ∧
      st1.secrets = st.secrets ∧
      (∃ o, policyGet st1.tokenPolicies ("team-" ++ teamID ++ "-token-limits") = some o ∧
        o.limit = limits.tokenLimit ∧ o.window = limits.tokenWindow) ∧
      (∃ o, policyGet st1.requestPolicies ("team-" ++ teamID ++ "-request-limits") = some o ∧
        o.limit = limits.requestLimit ∧ o.window = limits.requestWindow) := by
  have htok := createTeamTokenRateLimit_fresh teamID ("team-" ++ teamID ++ "-token-limits")
    limits st.tokenPolicies hT hteam hiT hfT
  have hreq := createTeamRequestRateLimit_fresh teamID ("team-" ++ teamID ++ "-request-limits")
    limits st.requestPolicies hR hteam hiR hfR
  have hcr : createTeamRateLimitPolicies teamID limits st.tokenPolicies st.requestPolicies =
      (.ok (), (createTeamTokenRateLimit teamID ("team-" ++ teamID ++ "-token-limits")
        limits st.tokenPolicies).2,
       (createTeamRequestRateLimit teamID ("team-" ++ teamID ++ "-request-limits")
        limits st.requestPolicies).2) := by
    simp only [createTeamRateLimitPolicies, htok, hreq]
  refine ⟨{ st with
      tokenPolicies := (createTeamTokenRateLimit teamID ("team-" ++ teamID ++ "-token-limits")
        limits st.tokenPolicies).2,
      requestPolicies := (createTeamRequestRateLimit teamID ("team-" ++ teamID ++ "-request-limits")
        limits st.requestPolicies).2 }, ?_, rfl, ?_, ?_⟩
  · simp only [syncTeamPolicies, hpm, hteamGet, hlim, hcr]
    simp
  · refine ⟨{ name := "team-" ++ teamID ++ "-token-limits", teamID := teamID,
              limit := limits.tokenLimit, window := limits.tokenWindow,
              counterExpr := "auth.identity.userid", predicate := teamPredicate teamID,
              resourceVersion := 1, uid := st.tokenPolicies.nextUid }, ?_, rfl, rfl⟩
    rw [htok]
    simp only [policyGet] at hfT ⊢
    rw [List.find?_append, hfT]
    simp
  · refine ⟨{ name := "team-" ++ teamID ++ "-request-limits", teamID := teamID,
              limit := limits.requestLimit, window := limits.requestWindow,
              counterExpr := "auth.identity.userid", predicate := teamPredicate teamID,
              resourceVersion := 1, uid := st.requestPolicies.nextUid }, ?_, rfl, rfl⟩
    rw [hreq]
    simp only [policyGet] at hfR ⊢
    rw [List.find?_append, hfR]
    simp

theorem find?_filter_ne {α : Type} (l : List α) (f : α → String) (n : String) :
    (l.filter (fun o => f o ≠ n)).find? (fun o => f o = n) = none := by
  rw [List.find?_eq_none]
  intro x hx
  rw [List.mem_filter] at hx
  have := hx.2
  simp only [decide_eq_true_eq] at this ⊢
  exact this

theorem filter_not_filter {α : Type} (l : List α) (p : α → Bool) :
    (l.filter (fun a => ¬ p a)).filter p = [] := by
  rw [List.filter_filter, List.filter_eq_nil_iff]
  intro a _
  cases h : p a <;> simp [h]

theorem find?_filter_of_find? {α : Type} (l : List α) (p q : α → Bool) (a : α)
    (h : l.find? p = some a) (hq : q a = true) : (l.filter q).find? p = some a := by
  induction l with
  | nil => simp at h
  | cons x t ih =>
    cases hp : p x with
    | true =>
      rw [List.find?_cons_of_pos _ hp] at h
      injection h with h
      subst h
      rw [List.filter_cons_of_pos hq, List.find?_cons_of_pos _ hp]
    | false =>
      rw [List.find?_cons_of_neg _ (by simp [hp])] at h
      cases hqx : q x with
      | true =>
        rw [List.filter_cons_of_pos hqx, List.find?_cons_of_neg _ (by simp [hp])]
        exact ih h
      | false =>
        rw [List.filter_cons_of_neg (by simp [hqx])]
        exact ih h

theorem deleteTokenOp_removes (n : String) (ps : PolicyStore) (hi : ps.injDeleteFail = none) :
    policyGet (deleteTeamTokenRateLimitOp n ps).2 n = none := by
  unfold deleteTeamTokenRateLimitOp policyDelete
  rw [hi]
  cases hg : policyGet ps n with
  | none => simp [hg]
  | some o =>
    simp only [hg]
    simp only [policyGet]
    exact find?_filter_ne ps.objs (fun o => o.name) n

theorem deleteRequestOp_removes (n : String) (ps : PolicyStore) (hi : ps.injDeleteFail = none) :
    policyGet (deleteTeamRequestRateLimitOp n ps).2 n = none := by
  unfold deleteTeamRequestRateLimitOp policyDelete
  rw [hi]
  cases hg : policyGet ps n with
  | none => simp [hg]
  | some o =>
    simp only [hg]
    simp only [policyGet]
    exact find?_filter_ne ps.objs (fun o => o.name) n

theorem filter_sel_after {α : Type} (l : List α) (q p : α → Bool) :
    ((l.filter (fun a => ¬ p a)).filter q).filter p = [] := by
  rw [List.filter_filter, List.filter_filter, List.filter_eq_nil_iff]
  intro a _
  cases h : p a <;> simp [h]

/-- Claim C8: `deleteTeam` on an existing team best-effort retracts both policy
kinds and best-effort deletes all API-key records labelled with the team before
deleting the Team record itself: on the all-successful path the response is OK,
the team record is gone, listing by the team's key selector returns empty, and
neither enforcement object remains; a failing policy retraction or a failing
key-collection delete does not abort the cascade (the Team record is still
deleted); and when the final team-record delete itself fails, the retraction
and key deletion have already happened while the record remains — exhibiting
the cascade order. -/
theorem deleteTeam_cascades_and_cleans_up
    (km : KMConfig) (teamID m : String) (st : SysState) (ts : Secret)
    (hpm : km.enablePolicyMgmt = true)
    (hteamGet : secretGet st.secrets (teamCfgName teamID) = some ts)
    (hsel : matchesSelector ts (teamKeySelector teamID) = false)
    (hdel : st.secrets.injDeleteFail = none)
    (hcol : st.secrets.injDeleteCollectionFail = none)
    (hiT : st.tokenPolicies.injDeleteFail = none)
    (hiR : st.requestPolicies.injDeleteFail = none) :
    ((deleteTeam km teamID st).1 = .ok "Team deleted successfully" ∧
     secretGet (deleteTeam km teamID st).2.secrets (teamCfgName teamID) = none ∧
     secretList (deleteTeam km teamID st).2.secrets (teamKeySelector teamID) = [] ∧
     policyGet (deleteTeam km teamID st).2.tokenPolicies
       ("team-" ++ teamID ++ "-token-limits") = none ∧
     policyGet (deleteTeam km teamID st).2.requestPolicies
       ("team-" ++ teamID ++ "-request-limits") = none) ∧
    ((deleteTeam km teamID
        { st with tokenPolicies := { st.tokenPolicies with injDeleteFail := some m },
                  requestPolicies := { st.requestPolicies with injDeleteFail := some m } }).1
       = .ok "Team deleted successfully" ∧
     secretGet (deleteTeam km teamID
        { st with tokenPolicies := { st.tokenPolicies with injDeleteFail := some m },
                  requestPolicies := { st.requestPolicies with injDeleteFail := some m } }).2.secrets
       (teamCfgName teamID) = none) ∧
    ((deleteTeam km teamID
        { st with secrets := { st.secrets with injDeleteCollectionFail := some m } }).1
       = .ok "Team deleted successfully" ∧
     secretGet (deleteTeam km teamID
        { st with secrets := { st.secrets with injDeleteCollectionFail := some m } }).2.secrets
       (teamCfgName teamID) = none) ∧
    ((deleteTeam km teamID
        { st with secrets := { st.secrets with injDeleteFail := some m } }).1
       = .serverError "Failed to delete team" ∧
     secretGet (deleteTeam km teamID
        { st with secrets := { st.secrets with injDeleteFail := some m } }).2.secrets
       (teamCfgName teamID) = some ts ∧
     secretList (deleteTeam km teamID
        { st with secrets := { st.secrets with injDeleteFail := some m } }).2.secrets
       (teamKeySelector teamID) = [] ∧
     policyGet (deleteTeam km teamID
        { st with secrets := { st.secrets with injDeleteFail := some m } }).2.tokenPolicies
       ("team-" ++ teamID ++ "-token-limits") = none ∧
     policyGet (deleteTeam km teamID
        { st with secrets := { st.secrets with injDeleteFail := some m } }).2.requestPolicies
       ("team-" ++ teamID ++ "-request-limits") = none) := by
  have hteamGet' : st.secrets.items.find? (fun s => s.name = teamCfgName teamID) = some ts :=
    hteamGet
  have hname : ts.name = teamCfgName teamID := by
    have := List.find?_some hteamGet'
    simpa using this
  have hget1 : (st.secrets.items.filter
      (fun s => ¬ matchesSelector s (teamKeySelector teamID))).find?
        (fun s => s.name = teamCfgName teamID) = some ts :=
    find?_filter_of_find? _ _ _ _ hteamGet' (by simp [hsel])
  have htpol : (deleteTeamPolicies teamID st.tokenPolicies st.requestPolicies).2.1
      = (deleteTeamTokenRateLimitOp ("team-" ++ teamID ++ "-token-limits")
          st.tokenPolicies).2 := rfl
  have hrpol : (deleteTeamPolicies teamID st.tokenPolicies st.requestPolicies).2.2
      = (deleteTeamRequestRateLimitOp ("team-" ++ teamID ++ "-request-limits")
          st.requestPolicies).2 := rfl
  have hmain : deleteTeam km teamID st =
      (.ok "Team deleted successfully",
       { secrets := { st.secrets with
                      items := (st.secrets.items.filter
                          (fun s => ¬ matchesSelector s (teamKeySelector teamID))).filter
                          (fun s => s.name ≠ ts.name) },
         tokenPolicies := (deleteTeamPolicies teamID st.tokenPolicies st.requestPolicies).2.1,
         requestPolicies :=
           (deleteTeamPolicies teamID st.tokenPolicies st.requestPolicies).2.2 }) := by
    simp only [deleteTeam, secretGet, hteamGet', hpm, if_true, deleteAllTeamKeys,
      secretDeleteCollection, hcol, secretDelete, hdel, hname, hget1]
  have hinjmain : deleteTeam km teamID
      { st with tokenPolicies := { st.tokenPolicies with injDeleteFail := some m },
                requestPolicies := { st.requestPolicies with injDeleteFail := some m } } =
      (.ok "Team deleted successfully",
       { secrets := { st.secrets with
                      items := (st.secrets.items.filter
                          (fun s => ¬ matchesSelector s (teamKeySelector teamID))).filter
                          (fun s => s.name ≠ ts.name) },
         tokenPolicies := { st.tokenPolicies with injDeleteFail := some m },
         requestPolicies := { st.requestPolicies with injDeleteFail := some m } }) := by
    simp only [deleteTeam, secretGet, hteamGet', hpm, if_true, deleteAllTeamKeys,
      secretDeleteCollection, hcol, secretDelete, hdel, hname, hget1, deleteTeamPolicies,
      deleteTeamTokenRateLimitOp, deleteTeamRequestRateLimitOp, policyDelete]
  have hcolmain : deleteTeam km teamID
      { st with secrets := { st.secrets with injDeleteCollectionFail := some m } } =
      (.ok "Team deleted successfully",
       { secrets := { st.secrets with
                      items := st.secrets.items.filter (fun s => s.name ≠ ts.name),
                      injDeleteCollectionFail := some m },
         tokenPolicies := (deleteTeamPolicies teamID st.tokenPolicies st.requestPolicies).2.1,
         requestPolicies :=
           (deleteTeamPolicies teamID st.tokenPolicies st.requestPolicies).2.2 }) := by
    simp only [deleteTeam, secretGet, hteamGet', hpm, if_true, deleteAllTeamKeys,
      secretDeleteCollection, secretDelete, hdel, hname, hteamGet']
  have hdelmain : deleteTeam km teamID
      { st with secrets := { st.secrets with injDeleteFail := some m } } =
      (.serverError "Failed to delete team",
       { secrets := { st.secrets with
                      items := st.secrets.items.filter
                          (fun s => ¬ matchesSelector s (teamKeySelector teamID)),
                      injDeleteFail := some m },
         tokenPolicies := (deleteTeamPolicies teamID st.tokenPolicies st.requestPolicies).2.1,
         requestPolicies :=
           (deleteTeamPolicies teamID st.tokenPolicies st.requestPolicies).2.2 }) := by
    simp only [deleteTeam, secretGet, hteamGet', hpm, if_true, deleteAllTeamKeys,
      secretDeleteCollection, hcol, secretDelete, hname, hget1]
  refine ⟨⟨?_, ?_, ?_, ?_, ?_⟩, ⟨?_, ?_⟩, ⟨?_, ?_⟩, ⟨?_, ?_, ?_, ?_, ?_⟩⟩
  · rw [hmain]
  · rw [hmain]
    simp only [secretGet]
    rw [← hname]
    exact find?_filter_ne _ (fun s : Secret => s.name) ts.name
  · rw [hmain]
    simp only [secretList]
    exact filter_sel_after st.secrets.items _ _
  · rw [hmain, htpol]
    exact deleteTokenOp_removes _ _ hiT
  · rw [hmain, hrpol]
    exact deleteRequestOp_removes _ _ hiR
  · rw [hinjmain]
  · rw [hinjmain]
    simp only [secretGet]
    rw [← hname]
    exact find?_filter_ne _ (fun s : Secret => s.name) ts.name
  · rw [hcolmain]
  · rw [hcolmain]
    simp only [secretGet]
    rw [← hname]
    exact find?_filter_ne _ (fun s : Secret => s.name) ts.name
  · rw [hdelmain]
  · rw [hdelmain]
    simp only [secretGet]
    exact hget1
  · rw [hdelmain]
    simp only [secretList]
    exact filter_not_filter st.secrets.items _
  · rw [hdelmain, htpol]
    exact deleteTokenOp_removes _ _ hiT
  · rw [hdelmain, hrpol]
    exact deleteRequestOp_removes _ _ hiR

/-- Claim C3 (code bug): for an existing non-default team with no API-key
records at all, the very first `CreateAPIKey` call for a (team, user) pair is
rejected as not-a-member — membership can never be established through key
creation, contradicting the claim (and the code's own `addUserToTeam` message
that key creation establishes membership). -/
theorem first_key_for_real_team_rejected :
    createTeamKeyInternal km0 "t1" reqKeyAlice (.ok (List.range 48))
        { secrets := { items := [teamT1Cfg] }, tokenPolicies := { objs := [] },
          requestPolicies := { objs := [] } }
      = some (.error (.wrap "user is not a member of this team: "
            (.msg "user alice is not a member of team t1")),
          { secrets := { items := [teamT1Cfg] }, tokenPolicies := { objs := [] },
            requestPolicies := { objs := [] } }) := rfl

theorem natToBytesBE_length (c : Nat) : ∀ n : Nat, (natToBytesBE n c).length = c := by
  induction c with
  | zero => intro n; rfl
  | succ k ih =>
    intro n
    simp only [natToBytesBE, List.length_append, ih (n / 256), List.length_singleton]

theorem bytesToHexChars_length : ∀ bs : List Nat, (bytesToHexChars bs).length = 2 * bs.length
  | [] => rfl
  | b :: bs => by
    simp only [bytesToHexChars, List.length_cons, bytesToHexChars_length bs]
    omega

theorem sha256Bytes_length (msg : List Nat) : (sha256Bytes msg).length = 32 := by
  simp [sha256Bytes, natToBytesBE_length]

theorem sha256hex_length (s : String) : (sha256hex s).length = 64 := by
  show (bytesToHexChars (sha256Bytes (strBytes s))).length = 64
  rw [bytesToHexChars_length, sha256Bytes_length]

theorem strTake_length (s : String) (n : Nat) : (strTake s n).length = min n s.length := by
  show (s.data.take n).length = min n s.data.length
  exact List.length_take n s.data

theorem filter_fp_nil (items : List Secret) (v : String)
    (h : items.all (fun s => (kvGet s.labels "maas/key-sha256").isNone) = true) :
    items.filter (fun s => matchesSelector s [("maas/key-sha256", v)]) = [] := by
  rw [List.filter_eq_nil_iff]
  intro a ha
  have := (List.all_eq_true.mp h) a ha
  simp only [Option.isNone_iff_eq_none] at this
  simp [matchesSelector, this]


theorem secret_filter_bne_eq_self {l : List Secret} {n : String}
    (h : l.find? (fun s => s.name = n) = none) :
    l.filter (fun s => !decide (s.name = n)) = l := by
  rw [List.find?_eq_none] at h
  rw [List.filter_eq_self]
  intro a ha
  have := h a ha
  simp only [decide_eq_true_eq] at this
  simp [this]

theorem enhancedKeySecret_name (km : KMConfig) (teamID : String) (req : CreateTeamKeyRequest)
    (apiKey : String) (member : TeamMember) :
    (enhancedKeySecret km teamID req apiKey member).name
      = keySecretName req.userID teamID apiKey := rfl

theorem enhancedKeySecret_fp (km : KMConfig) (teamID : String) (req : CreateTeamKeyRequest)
    (apiKey : String) (member : TeamMember) :
    kvGet (enhancedKeySecret km teamID req apiKey member).labels "maas/key-sha256"
      = some (strTake (sha256hex apiKey) 32) := by
  simp [enhancedKeySecret, kvGet]

/-- Claim C6: for every secret returned by a default-team `CreateAPIKey` into a
store holding no fingerprint-labelled records, a subsequent delete-by-secret
succeeds exactly once — the 32-hex-character truncation of the 64-character
SHA-256 digest computed at write time for the record's lookup label equals the
one recomputed at delete time, so the created record is found and deleted,
restoring the original records — and a second call with the same secret
returns not-found. -/
theorem create_key_delete_by_secret_round_trip
    (km : KMConfig) (req : CreateTeamKeyRequest) (bytes : List Nat)
    (st : SysState) (ts : Secret) (limits : TierLimits)
    (hteam : secretGet st.secrets (teamCfgName "default") = some ts)
    (hlim : getTierLimitsFuel 2 km.envDefaultTier km.defaultTeamTier = some limits)
    (hpm : km.enablePolicyMgmt = true)
    (hblen : bytes.length = 48)
    (hnameFree : secretGet st.secrets (keySecretName req.userID "default"
        (strTake (String.mk (base64urlEncodeList bytes)) 48)) = none)
    (hfp : st.secrets.items.all (fun s => (kvGet s.labels "maas/key-sha256").isNone) = true)
    (hdel : st.secrets.injDeleteFail = none) :
    ∃ resp st1,
      createTeamKeyInternal km "default" req (.ok bytes) st = some (.ok resp, st1) ∧
      resp.apiKey = strTake (String.mk (base64urlEncodeList bytes)) 48 ∧
      (∃ ks, secretGet st1.secrets resp.secretName = some ks ∧
        kvGet ks.labels "maas/key-sha256" = some (strTake (sha256hex resp.apiKey) 32)) ∧
      (sha256hex resp.apiKey).length = 64 ∧
      (strTake (sha256hex resp.apiKey) 32).length = 32 ∧
      deleteKey resp.apiKey true st1.secrets = (.ok resp.secretName, st.secrets) ∧
      deleteKey resp.apiKey true st.secrets = (.notFound "API key not found", st.secrets) := by
  have hnf : st.secrets.items.find? (fun s => s.name = keySecretName req.userID "default"
      (strTake (String.mk (base64urlEncodeList bytes)) 48)) = none := hnameFree
  have hck : createEnhancedKeySecret km "default" req
      (strTake (String.mk (base64urlEncodeList bytes)) 48)
      { userID := req.userID, userEmail := req.userID ++ "@default.local",
        role := "member", tier := km.defaultTeamTier, teamID := "default",
        teamName := "Default Team", defaultModels := limits.modelsAllowed,
        joinedAt := "", tokenLimit := limits.tokenLimit,
        requestLimit := limits.requestLimit, timeWindow := limits.tokenWindow }
      st.secrets
      = .ok (enhancedKeySecret km "default" req
          (strTake (String.mk (base64urlEncodeList bytes)) 48)
          { userID := req.userID, userEmail := req.userID ++ "@default.local",
            role := "member", tier := km.defaultTeamTier, teamID := "default",
            teamName := "Default Team", defaultModels := limits.modelsAllowed,
            joinedAt := "", tokenLimit := limits.tokenLimit,
            requestLimit := limits.requestLimit, timeWindow := limits.tokenWindow },
        { st.secrets with items := st.secrets.items ++ [enhancedKeySecret km "default" req
          (strTake (String.mk (base64urlEncodeList bytes)) 48)
          { userID := req.userID, userEmail := req.userID ++ "@default.local",
            role := "member", tier := km.defaultTeamTier, teamID := "default",
            teamName := "Default Team", defaultModels := limits.modelsAllowed,
            joinedAt := "", tokenLimit := limits.tokenLimit,
            requestLimit := limits.requestLimit, timeWindow := limits.tokenWindow }] }) := by
    simp only [createEnhancedKeySecret, secretCreate, secretGet, enhancedKeySecret_name, hnf]
  have hrun : createTeamKeyInternal km "default" req (.ok bytes) st =
      some (.ok
        { apiKey := strTake (String.mk (base64urlEncodeList bytes)) 48,
          userID := req.userID, teamID := "default",
          secretName := keySecretName req.userID "default"
            (strTake (String.mk (base64urlEncodeList bytes)) 48),
          modelsAllowed := (if req.models = [] then limits.modelsAllowed else req.models),
          tier := km.defaultTeamTier, tokenLimit := limits.tokenLimit,
          requestLimit := limits.requestLimit, timeWindow := limits.tokenWindow,
          inherited := .full
            { tier := km.defaultTeamTier, teamID := "default",
              teamHourlyLimit := limits.tokenLimitPerHour,
              userHourlyLimit := Int.tdiv limits.tokenLimitPerHour 4,
              modelsAllowed := limits.modelsAllowed,
              budgetEnforcement := true,
              maxConcurrentRequests := limits.maxConcurrentRequests },
          customConstraints := req.customLimits },
        { st with secrets := { st.secrets with
            items := st.secrets.items ++ [enhancedKeySecret km "default" req
              (strTake (String.mk (base64urlEncodeList bytes)) 48)
              { userID := req.userID, userEmail := req.userID ++ "@default.local",
                role := "member", tier := km.defaultTeamTier, teamID := "default",
                teamName := "Default Team", defaultModels := limits.modelsAllowed,
                joinedAt := "", tokenLimit := limits.tokenLimit,
                requestLimit := limits.requestLimit,
                timeWindow := limits.tokenWindow }] } }) := by
    simp [createTeamKeyInternal, hteam, hlim, hpm, generateSecureToken,
      buildInheritedPolicies, hck, enhancedKeySecret_name]
  have hmsel : matchesSelector (enhancedKeySecret km "default" req
      (strTake (String.mk (base64urlEncodeList bytes)) 48)
      { userID := req.userID, userEmail := req.userID ++ "@default.local",
        role := "member", tier := km.defaultTeamTier, teamID := "default",
        teamName := "Default Team", defaultModels := limits.modelsAllowed,
        joinedAt := "", tokenLimit := limits.tokenLimit,
        requestLimit := limits.requestLimit, timeWindow := limits.tokenWindow })
      [("maas/key-sha256", strTake (sha256hex
        (strTake (String.mk (base64urlEncodeList bytes)) 48)) 32)] = true := by
    simp [matchesSelector, enhancedKeySecret_fp]
  have hdk1 : deleteKey (strTake (String.mk (base64urlEncodeList bytes)) 48) true
      { st.secrets with items := st.secrets.items ++ [enhancedKeySecret km "default" req
        (strTake (String.mk (base64urlEncodeList bytes)) 48)
        { userID := req.userID, userEmail := req.userID ++ "@default.local",
          role := "member", tier := km.defaultTeamTier, teamID := "default",
          teamName := "Default Team", defaultModels := limits.modelsAllowed,
          joinedAt := "", tokenLimit := limits.tokenLimit,
          requestLimit := limits.requestLimit, timeWindow := limits.tokenWindow }] }
      = (.ok (keySecretName req.userID "default"
          (strTake (String.mk (base64urlEncodeList bytes)) 48)), st.secrets) := by
    simp only [deleteKey, secretList, List.filter_append,
      filter_fp_nil st.secrets.items _ hfp, secretDelete, secretGet, List.find?_append,
      enhancedKeySecret_name, hnf, secret_filter_name_eq_self hnf]
    simp [hmsel, enhancedKeySecret_name, hdel, hnf, secret_filter_name_eq_self hnf]
    rw [secret_filter_bne_eq_self hnf, ← hdel]
  have hdk2 : deleteKey (strTake (String.mk (base64urlEncodeList bytes)) 48) true st.secrets
      = (.notFound "API key not found", st.secrets) := by
    simp only [deleteKey, secretList, filter_fp_nil st.secrets.items _ hfp]
    simp
  refine ⟨_, _, hrun, rfl, ?_, sha256hex_length _, ?_, hdk1, hdk2⟩
  · refine ⟨enhancedKeySecret km "default" req
        (strTake (String.mk (base64urlEncodeList bytes)) 48)
        { userID := req.userID, userEmail := req.userID ++ "@default.local",
          role := "member", tier := km.defaultTeamTier, teamID := "default",
          teamName := "Default Team", defaultModels := limits.modelsAllowed,
          joinedAt := "", tokenLimit := limits.tokenLimit,
          requestLimit := limits.requestLimit, timeWindow := limits.tokenWindow }, ?_, ?_⟩
    · simp only [secretGet, List.find?_append, hnf, Option.none_or]
      simp [enhancedKeySecret_name]
    · exact enhancedKeySecret_fp km "default" req _ _
  · simp [strTake_length, sha256hex_length]

theorem createTeam_publish_failure_rolls_back_witness :
    createTeamInternal km0 reqT1
        { st0 with tokenPolicies := { objs := [], injCreateFail := some "boom" } } =
      some (.error (.wrap "failed to apply team policies: "
          (.wrap "failed to create token rate limit policy: "
            (.wrap "failed to create TokenRateLimitPolicy: " (.injected "boom")))),
        { secrets := st0.secrets,
          tokenPolicies := { objs := [], injCreateFail := some "boom" },
          requestPolicies := st0.requestPolicies }) :=
  (createTeam_publish_failure_rolls_back km0 reqT1 reqT1
    { st0 with tokenPolicies := { objs := [], injCreateFail := some "boom" } }
    (.wrap "failed to create token rate limit policy: "
      (.wrap "failed to create TokenRateLimitPolicy: " (.injected "boom")))
    { objs := [], injCreateFail := some "boom" } st0.requestPolicies
    ((lookupTier "free").getD
      { tokenLimit := 0, tokenWindow := "", requestLimit := 0, requestWindow := "",
        modelsAllowed := [], tokenLimitPerHour := 0, tokenLimitPerDay := 0,
        maxConcurrentRequests := 0 })
    rfl rfl rfl rfl rfl (by decide)).1

theorem publish_skips_unlimited_and_default_witness :
    createTeamTokenRateLimit "t9" "n1"
        ((lookupTier "unlimited").getD
          { tokenLimit := 0, tokenWindow := "", requestLimit := 0, requestWindow := "",
            modelsAllowed := [], tokenLimitPerHour := 0, tokenLimitPerDay := 0,
            maxConcurrentRequests := 0 })
        { objs := [] }
      = (.ok (), { objs := [] }) :=
  (publish_skips_unlimited_and_default "t9" "n1" "n2"
    ((lookupTier "unlimited").getD
      { tokenLimit := 0, tokenWindow := "", requestLimit := 0, requestWindow := "",
        modelsAllowed := [], tokenLimitPerHour := 0, tokenLimitPerDay := 0,
        maxConcurrentRequests := 0 })
    { objs := [] } { objs := [] } km0
    { teamID := "t2", teamName := "Team Two", description := "",
      defaultTier := "unlimited", tokenLimit := 0, requestLimit := 0, timeWindow := "" }
    st0
    (Or.inl (by decide)) (Or.inl (by decide)) (by decide) (by decide) rfl rfl rfl
    (by decide) (by decide)).1

theorem publish_twice_idempotent_witness :
    (createTeamTokenRateLimit "t1" "team-t1-token-limits"
        ((lookupTier "standard").getD
          { tokenLimit := 0, tokenWindow := "", requestLimit := 0, requestWindow := "",
            modelsAllowed := [], tokenLimitPerHour := 0, tokenLimitPerDay := 0,
            maxConcurrentRequests := 0 })
        { objs := [] }).1 = .ok () :=
  ((publish_twice_idempotent "t1" "team-t1-token-limits" "team-t1-request-limits" "boom"
    ((lookupTier "standard").getD
      { tokenLimit := 0, tokenWindow := "", requestLimit := 0, requestWindow := "",
        modelsAllowed := [], tokenLimitPerHour := 0, tokenLimitPerDay := 0,
        maxConcurrentRequests := 0 })
    { objs := [] } { objs := [] }
    (by decide) (by decide) (by decide) rfl rfl rfl rfl (by decide)).1).1

theorem create_key_delete_by_secret_round_trip_witness :
    (createTeamKeyInternal km0 "default" reqKeyAlice (.ok (List.range 48)) stDefaultTeam).map
        (fun r => match r.1 with | .ok _ => true | .error _ => false) = some true := by
  obtain ⟨resp, st1, h, -⟩ := create_key_delete_by_secret_round_trip km0 reqKeyAlice
    (List.range 48) stDefaultTeam defaultTeamCfg
    ((lookupTier "standard").getD
      { tokenLimit := 0, tokenWindow := "", requestLimit := 0, requestWindow := "",
        modelsAllowed := [], tokenLimitPerHour := 0, tokenLimitPerDay := 0,
        maxConcurrentRequests := 0 })
    rfl rfl rfl rfl rfl rfl rfl
  rw [h]
  rfl

theorem deleteTeam_cascades_and_cleans_up_witness :
    (deleteTeam km0 "t1"
      { secrets := { items := [teamT1Cfg] }, tokenPolicies := { objs := [] },
        requestPolicies := { objs := [] } }).1 = .ok "Team deleted successfully" :=
  (((deleteTeam_cascades_and_cleans_up km0 "t1" "boom"
    { secrets := { items := [teamT1Cfg] }, tokenPolicies := { objs := [] },
      requestPolicies := { objs := [] } }
    teamT1Cfg rfl rfl rfl rfl rfl rfl rfl).1).1)

theorem syncTeamPolicies_republishes_tier_defaults_witness :
    (syncTeamPolicies km0 "t1" true stOverride).map (fun r => r.1)
      = some (.ok "Team policies synchronized successfully") := by
  obtain ⟨st1, h, -⟩ := syncTeamPolicies_republishes_tier_defaults km0 "t1" stOverride
    teamT1CfgOverride
    ((lookupTier "free").getD
      { tokenLimit := 0, tokenWindow := "", requestLimit := 0, requestWindow := "",
        modelsAllowed := [], tokenLimitPerHour := 0, tokenLimitPerDay := 0,
        maxConcurrentRequests := 0 })
    rfl rfl rfl (by decide) (by decide) (by decide) rfl rfl rfl rfl
  rw [h]
  rfl
